import Mathlib

/-!
Shallow embedding of the sync-and-enrichment core of `sync.py`
(strava-to-notion): heart-rate zone minutes, HR drift, zone-weighted load
points, daily aggregation, rolling load windows, the Notion schema cache and
property-filtered upsert, and the orchestrator's per-activity enrichment and
failure-rate gate.  Numeric values that are Python floats are modelled as
exact rationals; Python's `round(x, k)` is modelled by rounding
`x * 10^k` to the nearest integer.
-/

namespace StravaNotion

/-! ### Rounding -/

/-- Rounding a rational to the nearest integer, computed with `Rat.floor` so
that it evaluates by `decide`/`rfl`.  Python's `round` breaks exact ties to
the even neighbour; this model breaks them upward, and no claim below
depends on an exact tie. -/
def pyRound (q : ℚ) : ℤ := (q + 1 / 2).floor

/-- Model of Python `round(x, 2)`: round to 2 decimal places. -/
def round2 (q : ℚ) : ℚ := (pyRound (q * 100) : ℤ) / 100

/-- Model of Python `round(x, 1)`: round to 1 decimal place. -/
def round1 (q : ℚ) : ℚ := (pyRound (q * 10) : ℤ) / 10

/-! ### Constants from the top of `sync.py` -/

/-- `PACE_SPORTS` from `sync.py`. -/
def PACE_SPORTS : List String := ["Run", "TrailRun", "Walk", "Hike", "VirtualRun"]

/-- `INDOOR_SPORTS` from `sync.py`. -/
def INDOOR_SPORTS : List String := ["WeightTraining", "Workout", "Crossfit"]

/-- `CARDIO_SPORTS` from `sync.py`. -/
def CARDIO_SPORTS : List String :=
  ["Run", "Hike", "StairStepper", "TrailRun", "Walk", "VirtualRun"]

/-- `METERS_TO_MILES = 0.000621371` from `sync.py`. -/
def METERS_TO_MILES : ℚ := 621371 / 1000000000

/-- `METERS_TO_FEET = 3.28084` from `sync.py`. -/
def METERS_TO_FEET : ℚ := 328084 / 100000

/-- `SECONDS_PER_MINUTE = 60` from `sync.py`. -/
def SECONDS_PER_MINUTE : ℚ := 60

/-- `DRIFT_MIN_MOVING_TIME_MINUTES = 20` from `sync.py`. -/
def DRIFT_MIN_MOVING_TIME_MINUTES : ℤ := 20

/-- `DRIFT_MIN_DISTANCE_MILES = 3.0` from `sync.py`. -/
def DRIFT_MIN_DISTANCE_MILES : ℚ := 3

/-- `DRIFT_MIN_HR_SAMPLES = 120` from `sync.py`. -/
def DRIFT_MIN_HR_SAMPLES : ℕ := 120

/-- `DRIFT_MIN_DURATION_FRACTION = 0.8` from `sync.py`. -/
def DRIFT_MIN_DURATION_FRACTION : ℚ := 4 / 5

/-- `DRIFT_MIN_DURATION_SECONDS_FALLBACK = 10 * 60` from `sync.py`. -/
def DRIFT_MIN_DURATION_SECONDS_FALLBACK : ℚ := 10 * 60

/-- `DRIFT_MIN_VELOCITY_THRESHOLD_MPS = 0.1` from `sync.py`. -/
def DRIFT_MIN_VELOCITY_THRESHOLD_MPS : ℚ := 1 / 10

/-- `DEFAULT_FAILURE_THRESHOLD = 0.2` from `sync.py`. -/
def DEFAULT_FAILURE_THRESHOLD : ℚ := 1 / 5

/-! ### HR zone minutes (`StravaClient.compute_hr_zone_minutes`) -/

/-- One heart-rate zone definition as returned by the Strava athlete-zones
endpoint: a dict with optional `min`/`max` keys (`zone.get("min", 0)`
defaults a missing `min` to 0; `zone.get("max")` yields `None` for a
missing or null `max`). -/
structure Zone where
  min? : Option ℤ
  max? : Option ℤ
  deriving DecidableEq, Repr

/-- The zone-membership test of `compute_hr_zone_minutes`:
`hr >= min_hr and (max_hr is None or hr < max_hr)`. -/
def zoneContains (z : Zone) (hr : ℤ) : Bool :=
  decide (z.min?.getD 0 ≤ hr) &&
    (match z.max? with
     | none => true
     | some m => decide (hr < m))

/-- The inner `for idx, zone in enumerate(zones): ... break` loop of
`compute_hr_zone_minutes`: the 0-based index of the first zone whose band
contains `hr`, if any. -/
def firstZoneIdx (zones : List Zone) (hr : ℤ) : Option ℕ :=
  zones.findIdx? (fun z => zoneContains z hr)

/-- The outer sample loop of `compute_hr_zone_minutes`: starting from the
all-zero `zone_counts` dict, for each sample index `i < n-1` add
`max(0, t[i+1] - t[i])` seconds to the (1-based) zone of the leading
sample's heart rate, when one matches.  Modelled as a function from the
1-based zone number to accumulated seconds. -/
def zoneCountsLoop (hrv tv : List ℤ) (n : ℕ) : List Zone → ℕ → ℤ :=
  fun zones =>
    (List.range (n - 1)).foldl
      (fun counts i =>
        match firstZoneIdx zones (hrv.getD i 0) with
        | some idx =>
            fun z =>
              if z = idx + 1 then counts z + max 0 (tv.getD (i + 1) 0 - tv.getD i 0)
              else counts z
        | none => counts)
      (fun _ => 0)

/-- `StravaClient.compute_hr_zone_minutes(hr_stream, zones)`: minutes per
HR zone from parallel `hr`/`time` streams.  Returns `none` when the stream
or zone list is empty or fewer than 2 aligned samples exist; otherwise the
dict `{zone: round(seconds / 60, 2)}` with one (1-based) key per zone, in
zone order. -/
def computeHrZoneMinutes (hrv tv : List ℤ) (zones : List Zone) :
    Option (List (ℕ × ℚ)) :=
  if hrv = [] ∨ tv = [] ∨ zones = [] then none
  else
    let n := min hrv.length tv.length
    if n < 2 then none
    else
      let counts := zoneCountsLoop (hrv.take n) (tv.take n) n zones
      some ((List.range zones.length).map
        (fun i => (i + 1, round2 ((counts (i + 1) : ℚ) / SECONDS_PER_MINUTE))))

/-- The clamped time delta of sample `i` in the truncated streams. -/
def sampleDelta (tv : List ℤ) (i : ℕ) : ℤ :=
  max 0 (tv.getD (i + 1) 0 - tv.getD i 0)

/-- Total covered stream duration in seconds: the sum of clamped
inter-sample deltas over the truncated stream. -/
def coveredDuration (tv : List ℤ) (n : ℕ) : ℤ :=
  ((List.range (n - 1)).map (fun i => sampleDelta tv i)).sum

/-- Seconds attributed to 1-based zone `z`: the sum of the clamped deltas of
exactly those samples whose leading heart rate first-matches zone `z`. -/
def zoneSecondsSpec (hrv tv : List ℤ) (zones : List Zone) (n z : ℕ) : ℤ :=
  (((List.range (n - 1)).filter
      (fun i => firstZoneIdx zones (hrv.getD i 0) = some (z - 1))).map
    (fun i => sampleDelta tv i)).sum

/-! ### Zone-weighted load points (`compute_zone_weighted_load_points`) -/

/-- `zone_minutes.get(zone_num, 0.0)`: look a zone number up in the
zone-minutes dict, defaulting to 0. -/
def lookupZoneMinutes (zoneMinutes : List (ℕ × ℚ)) (z : ℕ) : ℚ :=
  ((zoneMinutes.find? (fun p => p.1 = z)).map (fun p => p.2)).getD 0

/-- The weighted total `Σ minutes_in_zone_i × i` over `i = 1..5` computed by
the `for zone_num in range(1, 6)` loop of `compute_zone_weighted_load_points`. -/
def weightedLoadTotal (zoneMinutes : List (ℕ × ℚ)) : ℚ :=
  ((List.range 5).map
    (fun i => lookupZoneMinutes zoneMinutes (i + 1) * ((i : ℚ) + 1))).sum

/-- `compute_zone_weighted_load_points(zone_minutes)`: `None` for an empty
histogram; otherwise `round(total, 2)` when the weighted total is positive
and `None` otherwise. -/
def computeZoneWeightedLoadPoints (zoneMinutes : List (ℕ × ℚ)) : Option ℚ :=
  if zoneMinutes = [] then none
  else
    let totalLoad := weightedLoadTotal zoneMinutes
    if 0 < totalLoad then some (round2 totalLoad) else none

/-! ### HR drift (`StravaClient.compute_hr_drift`) -/

/-- The result dict of `compute_hr_drift`. -/
structure DriftMetrics where
  drift_pct : ℚ
  avg_hr_1 : ℚ
  avg_hr_2 : ℚ
  avg_vel_1_mps : ℚ
  avg_vel_2_mps : ℚ
  deriving DecidableEq, Repr

/-- The six running sums of the `compute_hr_drift` segment loop. -/
structure DriftSums where
  hrSum1 : ℚ
  hrSum2 : ℚ
  velSum1 : ℚ
  velSum2 : ℚ
  dt1 : ℚ
  dt2 : ℚ
  deriving DecidableEq, Repr

/-- One iteration of the `compute_hr_drift` segment loop: a segment
`(t0, t1, hr, vel)` is skipped when `t1 <= t0`, credited wholly to the first
half when `t1 <= midpoint`, wholly to the second half when `t0 >= midpoint`,
and otherwise split proportionally at the midpoint. -/
def driftFoldStep (midpoint : ℚ) (acc : DriftSums) (seg : ℤ × ℤ × ℤ × ℚ) :
    DriftSums :=
  let t0 := seg.1
  let t1 := seg.2.1
  let hr := seg.2.2.1
  let vel := seg.2.2.2
  if t1 ≤ t0 then acc
  else
    let dt : ℚ := (t1 : ℚ) - (t0 : ℚ)
    if (t1 : ℚ) ≤ midpoint then
      { acc with hrSum1 := acc.hrSum1 + hr * dt, velSum1 := acc.velSum1 + vel * dt,
                 dt1 := acc.dt1 + dt }
    else if midpoint ≤ (t0 : ℚ) then
      { acc with hrSum2 := acc.hrSum2 + hr * dt, velSum2 := acc.velSum2 + vel * dt,
                 dt2 := acc.dt2 + dt }
    else
      let dtFirst := max 0 (midpoint - (t0 : ℚ))
      let dtSecond := max 0 ((t1 : ℚ) - midpoint)
      let acc :=
        if 0 < dtFirst then
          { acc with hrSum1 := acc.hrSum1 + hr * dtFirst,
                     velSum1 := acc.velSum1 + vel * dtFirst, dt1 := acc.dt1 + dtFirst }
        else acc
      if 0 < dtSecond then
        { acc with hrSum2 := acc.hrSum2 + hr * dtSecond,
                   velSum2 := acc.velSum2 + vel * dtSecond, dt2 := acc.dt2 + dtSecond }
      else acc

/-- The list of segments `(t[i], t[i+1], hr[i], vel[i])` for `i < n-1`
walked by the `compute_hr_drift` loop. -/
def driftSegments (hrv tv : List ℤ) (vel : List ℚ) (n : ℕ) :
    List (ℤ × ℤ × ℤ × ℚ) :=
  (List.range (n - 1)).map
    (fun i => (tv.getD i 0, tv.getD (i + 1) 0, hrv.getD i 0, vel.getD i 0))

/-- The accumulated sums of the `compute_hr_drift` loop for truncated
streams of length `n` and a given midpoint. -/
def driftSums (hrv tv : List ℤ) (vel : List ℚ) (n : ℕ) (midpoint : ℚ) :
    DriftSums :=
  (driftSegments hrv tv vel n).foldl (driftFoldStep midpoint)
    ⟨0, 0, 0, 0, 0, 0⟩

/-- `StravaClient.compute_hr_drift(hr_stream, moving_time_s, distance_m)`.
The `moving_time_s`/`distance_m` parameters appear in the Python signature
but are not used in the function body.  Streams are truncated to the
shortest of `hr`/`time`/`vel`; the midpoint is `t[0] + total_duration / 2`. -/
def computeHrDrift (hrv tv : List ℤ) (vel : List ℚ)
    (movingTimeS : ℤ) (distanceM : ℚ) : Option DriftMetrics :=
  let _ := movingTimeS
  let _ := distanceM
  let n := min hrv.length (min tv.length vel.length)
  if n < 2 then none
  else
    let hrv' := hrv.take n
    let tv' := tv.take n
    let vel' := vel.take n
    let totalDuration := tv'.getD (n - 1) 0 - tv'.getD 0 0
    if totalDuration ≤ 0 then none
    else
      let midpoint : ℚ := (tv'.getD 0 0 : ℚ) + (totalDuration : ℚ) / 2
      let s := driftSums hrv' tv' vel' n midpoint
      if s.dt1 ≤ 0 ∨ s.dt2 ≤ 0 then none
      else
        let avgHr1 := s.hrSum1 / s.dt1
        let avgHr2 := s.hrSum2 / s.dt2
        let avgVel1 := s.velSum1 / s.dt1
        let avgVel2 := s.velSum2 / s.dt2
        if avgVel1 ≤ DRIFT_MIN_VELOCITY_THRESHOLD_MPS ∨
            avgVel2 ≤ DRIFT_MIN_VELOCITY_THRESHOLD_MPS then none
        else
          let eff1 := avgHr1 / avgVel1
          let eff2 := avgHr2 / avgVel2
          if eff1 ≤ 0 then none
          else some ⟨(eff2 - eff1) / eff1 * 100, avgHr1, avgHr2, avgVel1, avgVel2⟩

/-! ### Rolling loads (`compute_rolling_loads`) -/

/-- `compute_rolling_loads(daily_summaries, today)`: daily summaries are
modelled as `(date, total_load_pts)` pairs with the date as a day ordinal
(the Python code parses the ISO date key and takes `(today - date).days`);
`total_load_pts` is `Option ℚ` with `None` treated as 0 (the
`... or 0.0` in the source).  Returns `(load_7d, load_28d)` rounded to 2
decimals. -/
def computeRollingLoads (dailySummaries : List (ℤ × Option ℚ)) (today : ℤ) :
    ℚ × ℚ :=
  let loads :=
    dailySummaries.foldl
      (fun (acc : ℚ × ℚ) entry =>
        let daysAgo := today - entry.1
        let loadPts := entry.2.getD 0
        let l7 := if 0 ≤ daysAgo ∧ daysAgo ≤ 6 then acc.1 + loadPts else acc.1
        let l28 := if 0 ≤ daysAgo ∧ daysAgo ≤ 27 then acc.2 + loadPts else acc.2
        (l7, l28))
      (0, 0)
  (round2 loads.1, round2 loads.2)

/-! ### Daily aggregation (`aggregate_daily_summaries`) -/

/-- The fields of one activity dict that `aggregate_daily_summaries` reads.
`dateIso` models `get_activity_local_date(activity)` (the local calendar
date, falling back to the UTC date), precomputed; `hrDataQuality` models
`activity.get("_hr_data_quality", "None")` and `loadPts` models
`activity.get("_load_pts")`. -/
structure AggActivity where
  dateIso : String
  sport : String
  elapsedTimeS : ℚ
  movingTimeS : ℚ
  distanceM : ℚ
  elevationM : ℚ
  hrDataQuality : String
  loadPts : Option ℚ
  deriving DecidableEq, Repr

/-- One per-day summary row built by `aggregate_daily_summaries`. -/
structure DailySummary where
  totalDurationMin : ℚ
  totalMovingTimeMin : ℚ
  totalDistanceMi : ℚ
  totalElevationFt : ℚ
  sessionCount : ℕ
  totalLoadPts : ℚ
  eligibleCardioCount : ℕ
  loadWorkoutsCount : ℕ
  deriving DecidableEq, Repr

/-- The zero-initialised day summary created on first sight of a date. -/
def emptyDailySummary : DailySummary := ⟨0, 0, 0, 0, 0, 0, 0, 0⟩

/-- The body of the `for activity in activities` loop of
`aggregate_daily_summaries`, applied to one day's summary: bump the session
count, add the (truthy) duration/moving-time/distance/elevation
contributions, and for cardio sports count eligibility and — only when
`_hr_data_quality == "Good"` and `_load_pts` is present and positive — add
the load points. -/
def bumpDailySummary (s : DailySummary) (a : AggActivity) : DailySummary :=
  let s := { s with sessionCount := s.sessionCount + 1 }
  let s := if a.elapsedTimeS ≠ 0 then
      { s with totalDurationMin := s.totalDurationMin + a.elapsedTimeS / SECONDS_PER_MINUTE }
    else s
  let s := if a.movingTimeS ≠ 0 then
      { s with totalMovingTimeMin := s.totalMovingTimeMin + a.movingTimeS / SECONDS_PER_MINUTE }
    else s
  let s := if a.distanceM ≠ 0 then
      { s with totalDistanceMi := s.totalDistanceMi + a.distanceM * METERS_TO_MILES }
    else s
  let s := if a.elevationM ≠ 0 then
      { s with totalElevationFt := s.totalElevationFt + a.elevationM * METERS_TO_FEET }
    else s
  if a.sport ∈ CARDIO_SPORTS then
    let s := { s with eligibleCardioCount := s.eligibleCardioCount + 1 }
    match a.loadPts with
    | some lp =>
        if a.hrDataQuality = "Good" ∧ 0 < lp then
          { s with totalLoadPts := s.totalLoadPts + lp,
                   loadWorkoutsCount := s.loadWorkoutsCount + 1 }
        else s
    | none => s
  else s

/-- One iteration of `aggregate_daily_summaries` over the `daily` dict
(modelled as an association list keyed by ISO date, in insertion order):
initialise the date's entry if absent, then apply `bumpDailySummary`. -/
def aggStep (daily : List (String × DailySummary)) (a : AggActivity) :
    List (String × DailySummary) :=
  let daily :=
    if daily.any (fun kv => kv.1 = a.dateIso) then daily
    else daily ++ [(a.dateIso, emptyDailySummary)]
  daily.map (fun kv => if kv.1 = a.dateIso then (kv.1, bumpDailySummary kv.2 a) else kv)

/-- The final rounding pass of `aggregate_daily_summaries`. -/
def roundDailySummary (s : DailySummary) : DailySummary :=
  { s with totalDurationMin := round2 s.totalDurationMin,
           totalMovingTimeMin := round2 s.totalMovingTimeMin,
           totalDistanceMi := round2 s.totalDistanceMi,
           totalElevationFt := round1 s.totalElevationFt,
           totalLoadPts := round2 s.totalLoadPts }

/-- `aggregate_daily_summaries(activities, days)`: group activities by local
date and aggregate.  The `days` parameter is unused in the source body
("for context"). -/
def aggregateDailySummaries (activities : List AggActivity) (days : ℕ) :
    List (String × DailySummary) :=
  let _ := days
  (activities.foldl aggStep []).map (fun kv => (kv.1, roundDailySummary kv.2))

/-- An activity with its `_load_pts` annotation removed unless its
`_hr_data_quality` is `"Good"` — used to state that non-Good activities
never contribute load to the daily totals. -/
def stripLoadUnlessGood (a : AggActivity) : AggActivity :=
  if a.hrDataQuality = "Good" then a else { a with loadPts := none }

/-! ### Orchestrator per-activity enrichment (`sync_strava_to_notion` loop) -/

/-- An activity's HR streams as returned by `get_activity_hr_stream`:
parallel `hr`/`time` lists and a best-effort `vel` list (empty when the
velocity series is absent). -/
structure Streams where
  hr : List ℤ
  time : List ℤ
  vel : List ℚ
  deriving DecidableEq, Repr

/-- The inputs of the per-activity enrichment block of
`sync_strava_to_notion`: the activity fields it reads, the (lazily fetched)
stream result, and the athlete's HR zones fetched once per run. -/
structure EnrichInput where
  sport : String
  hasHr : Bool
  movingTimeS : ℤ
  distanceM : ℚ
  streams : Option Streams
  hrZones : Option (List Zone)
  deriving Repr

/-- The `_hr_zone_minutes` / `_drift_metrics` / `_drift_eligible` /
`_hr_data_quality` / `_load_pts` annotations the orchestrator attaches to an
activity. -/
structure EnrichResult where
  hrZoneMinutes : Option (List (ℕ × ℚ))
  driftMetrics : Option DriftMetrics
  driftEligible : Bool
  hrDataQuality : String
  loadPts : Option ℚ
  deriving Repr

/-- Python truthiness of the fetched HR-zone list (`if hr_zones:`):
present and non-empty. -/
def zonesTruthy : Option (List Zone) → Bool
  | none => false
  | some l => !l.isEmpty

/-- The per-activity enrichment block of `sync_strava_to_notion`
(default annotations, drift eligibility, stream fetch guard, HR data
quality, zone minutes, load points, drift metrics). -/
def enrichActivity (inp : EnrichInput) : EnrichResult :=
  let minMovingTimeS : ℤ := DRIFT_MIN_MOVING_TIME_MINUTES * 60
  let minDistanceM : ℚ := DRIFT_MIN_DISTANCE_MILES / METERS_TO_MILES
  let basicDriftEligible : Bool :=
    inp.hasHr && decide (inp.sport ∈ PACE_SPORTS) &&
      decide (minMovingTimeS ≤ inp.movingTimeS) && decide (minDistanceM ≤ inp.distanceM)
  let streams :=
    if inp.hasHr && (zonesTruthy inp.hrZones || basicDriftEligible) then inp.streams
    else none
  match streams with
  | none => ⟨none, none, false, "None", none⟩
  | some st =>
      let nSamples := min st.hr.length st.time.length
      let durationStream : ℤ :=
        if 2 ≤ nSamples then st.time.getD (st.time.length - 1) 0 - st.time.getD 0 0
        else 0
      let coverageOk : Bool :=
        decide (DRIFT_MIN_HR_SAMPLES ≤ nSamples) ||
          decide (max ((inp.movingTimeS : ℚ) * DRIFT_MIN_DURATION_FRACTION)
              DRIFT_MIN_DURATION_SECONDS_FALLBACK ≤ (durationStream : ℚ))
      let quality : String :=
        if !inp.hasHr || nSamples = 0 then "None"
        else if coverageOk then "Good"
        else "Partial"
      let zoneMinutes? : Option (List (ℕ × ℚ)) :=
        if zonesTruthy inp.hrZones then
          match computeHrZoneMinutes st.hr st.time (inp.hrZones.getD []) with
          | some m => if !m.isEmpty then some m else none
          | none => none
        else none
      let loadPts? : Option ℚ :=
        match zoneMinutes? with
        | some m =>
            if inp.sport ∈ CARDIO_SPORTS ∧ quality = "Good" then
              match computeZoneWeightedLoadPoints m with
              | some lp => if 0 < lp then some lp else none
              | none => none
            else none
        | none => none
      let driftMetrics? : Option DriftMetrics :=
        if basicDriftEligible && coverageOk then
          computeHrDrift st.hr st.time st.vel inp.movingTimeS inp.distanceM
        else none
      ⟨zoneMinutes?, driftMetrics?, driftMetrics?.isSome, quality, loadPts?⟩

/-! ### Run statistics and the failure-rate gate (`sync_strava_to_notion`) -/

/-- The outcome of processing one fetched activity in the sync loop:
a non-dict payload, a successful upsert of an existing page, a successful
create, an upsert returning `False`, or an exception during upsert. -/
inductive UpsertOutcome where
  | notDict
  | okExisting
  | okNew
  | upsertFailed
  | upsertRaised
  deriving DecidableEq, Repr

/-- The `stats` dict of `sync_strava_to_notion`. -/
structure SyncStats where
  fetched : ℕ
  created : ℕ
  updated : ℕ
  skipped : ℕ
  failed : ℕ
  deriving DecidableEq, Repr

/-- The stats update of one iteration of the sync loop. -/
def processOutcome (s : SyncStats) : UpsertOutcome → SyncStats
  | .notDict => { s with failed := s.failed + 1 }
  | .okExisting => { s with updated := s.updated + 1 }
  | .okNew => { s with created := s.created + 1 }
  | .upsertFailed => { s with failed := s.failed + 1 }
  | .upsertRaised => { s with failed := s.failed + 1 }

/-- The statistics of a full run: `fetched` is set to the number of fetched
activities before the loop, and every activity's outcome is folded in (the
loop never stops early; each iteration catches its own exceptions). -/
def runStats (outcomes : List UpsertOutcome) : SyncStats :=
  outcomes.foldl processOutcome
    { fetched := outcomes.length, created := 0, updated := 0, skipped := 0, failed := 0 }

/-- Observable tail events of `sync_strava_to_notion` after the loop. -/
inductive RunEvent where
  | logSummary (stats : SyncStats)
  | exitNonZero
  | syncCompleted
  deriving DecidableEq, Repr

/-- The tail of `sync_strava_to_notion`: log the summary block, then — only
if `fetched > 0` and `failed / fetched` exceeds the threshold — exit with a
non-zero status; otherwise log completion. -/
def finishRun (stats : SyncStats) (failureThreshold : ℚ) : List RunEvent :=
  [RunEvent.logSummary stats] ++
    (if 0 < stats.fetched ∧
        failureThreshold < (stats.failed : ℚ) / (stats.fetched : ℚ) then
      [RunEvent.exitNonZero]
    else [RunEvent.syncCompleted])

/-! ### Notion property conversion (`NotionClient._convert_activity_to_properties`) -/

/-- `METERS_PER_SECOND_TO_MPH = 2.236936` from `sync.py`. -/
def METERS_PER_SECOND_TO_MPH : ℚ := 2236936 / 1000000

/-- A Notion property value payload as built by the sync script:
`{"title": ...}`, `{"rich_text": ...}`, `{"date": {"start": ...}}`,
`{"select": {"name": ...}}`, `{"number": ...}`, `{"url": ...}` or
`{"checkbox": ...}`. -/
inductive PropValue where
  | title (s : String)
  | richText (s : String)
  | date (s : String)
  | select (s : String)
  | number (q : ℚ)
  | url (s : String)
  | checkbox (b : Bool)
  deriving DecidableEq, Repr

/-- A Notion page's property dict, modelled as an association list in
insertion order. -/
abbrev NotionPage := List (String × PropValue)

/-- Python dict assignment `d[k] = v` on an association list: overwrite the
existing binding in place, else append. -/
def dictSet : NotionPage → String → PropValue → NotionPage
  | [], k, v => [(k, v)]
  | kv :: rest, k, v =>
      if kv.1 = k then (k, v) :: rest else kv :: dictSet rest k v

/-- Dict lookup `d.get(k)` on an association list. -/
def lookupProp (ps : NotionPage) (k : String) : Option PropValue :=
  (ps.find? (fun kv => kv.1 = k)).map (fun kv => kv.2)

/-- The keys of a property dict. -/
def propKeys (ps : NotionPage) : List String := ps.map (fun kv => kv.1)

/-- The `NOTION_SCHEMA` dict of `sync.py`: logical field name to Notion
property display name. -/
def NOTION_SCHEMA (key : String) : String :=
  match key with
  | "name" => "Name"
  | "activity_id" => "Activity ID"
  | "date" => "Date"
  | "sport" => "Sport"
  | "duration_min" => "Duration (min)"
  | "distance_mi" => "Distance (mi)"
  | "elevation_ft" => "Elevation (ft)"
  | "strava_url" => "Strava URL"
  | "last_synced" => "Last Synced"
  | "avg_hr" => "Avg HR"
  | "max_hr" => "Max HR"
  | "avg_pace_min_per_mi" => "Avg Pace (min/mi)"
  | "moving_time_min" => "Moving Time (min)"
  | "hr_drift_pct" => "HR Drift (%)"
  | "hr_1st_half_bpm" => "HR 1st Half (bpm)"
  | "hr_2nd_half_bpm" => "HR 2nd Half (bpm)"
  | "speed_1st_half_mph" => "Speed 1st Half (mph)"
  | "speed_2nd_half_mph" => "Speed 2nd Half (mph)"
  | "drift_eligible" => "Drift Eligible"
  | "hr_data_quality" => "HR Data Quality"
  | "temperature_f" => "Temperature (°F)"
  | "weather_conditions" => "Weather Conditions"
  | "sync_status" => "Sync Status"
  | "photo_url" => "Photo URL"
  | "load_pts" => "Load (pts)"
  | _ => ""

/-- The dynamically generated HR-zone property name:
`NOTION_SCHEMA["hr_zone_min"].format(zone=z)`. -/
def hrZonePropName (z : ℕ) : String := "HR Zone " ++ toString z ++ " (min)"

/-- Python `str.replace("Z", "+00:00")` on an ISO timestamp, modelled at the
character level ("Z" is a single character, so substring and character
replacement coincide). -/
def replaceZChars : List Char → List Char
  | [] => []
  | c :: cs =>
      if c = 'Z' then '+' :: '0' :: '0' :: ':' :: '0' :: '0' :: replaceZChars cs
      else c :: replaceZChars cs

/-- ISO-timestamp normalisation `start_date.replace("Z", "+00:00")`. -/
def pyReplaceZ (s : String) : String := String.mk (replaceZChars s.data)

/-- Whitespace test for Python `str.strip()`. -/
def isPySpace (c : Char) : Bool :=
  c = ' ' || c = '\t' || c = '\n' || c = '\r'

/-- Python `str.strip()`: drop leading and trailing whitespace. -/
def pyStrip (s : String) : String :=
  String.mk (((s.data.dropWhile isPySpace).reverse.dropWhile isPySpace).reverse)

/-- The weather annotation attached to an activity: an optional `temp_f`
and the rendered `make_weather_summary` string (the summary is produced by
string formatting, modelled as an opaque precomputed field). -/
structure WeatherInfo where
  tempF : Option ℚ
  summary : String
  deriving DecidableEq, Repr

/-- The fields of a Strava activity dict (plus the orchestrator's transient
annotations) that `_convert_activity_to_properties` reads.  Fields read via
`activity.get(key, default)` are `Option`s with the default applied at the
use site; `start_date` is read directly (required). -/
structure ActivityRecord where
  id : ℤ
  name : String
  type? : Option String
  startDate : String
  distance? : Option ℚ
  totalElevationGain? : Option ℚ
  elapsedTime? : Option ℚ
  movingTime? : Option ℚ
  averageHeartrate? : Option ℚ
  maxHeartrate? : Option ℚ
  hrZoneMinutes : Option (List (ℕ × ℚ))
  driftMetrics : Option DriftMetrics
  driftEligible : Bool
  hrDataQuality : String
  loadPts : Option ℚ
  photoUrl : Option String
  weather : Option WeatherInfo
  deriving Repr

/-- `if avg_hr: properties[NOTION_SCHEMA["avg_hr"]] = {"number": avg_hr}`
of `_convert_activity_to_properties`. -/
def addAvgHr (ps : NotionPage) (avgHr? : Option ℚ) : NotionPage :=
  match avgHr? with
  | some hr => if hr ≠ 0 then dictSet ps (NOTION_SCHEMA "avg_hr") (.number hr) else ps
  | none => ps

/-- `if max_hr: ...` of `_convert_activity_to_properties`. -/
def addMaxHr (ps : NotionPage) (maxHr? : Option ℚ) : NotionPage :=
  match maxHr? with
  | some hr => if hr ≠ 0 then dictSet ps (NOTION_SCHEMA "max_hr") (.number hr) else ps
  | none => ps

/-- `if pace_min_per_mi: ...` of `_convert_activity_to_properties`. -/
def addPace (ps : NotionPage) (pace? : Option ℚ) : NotionPage :=
  match pace? with
  | some p =>
      if p ≠ 0 then dictSet ps (NOTION_SCHEMA "avg_pace_min_per_mi") (.number (round2 p))
      else ps
  | none => ps

/-- `if moving_time_min: ...` of `_convert_activity_to_properties`. -/
def addMovingTimeMin (ps : NotionPage) (movingTimeMin? : Option ℚ) : NotionPage :=
  match movingTimeMin? with
  | some m =>
      if m ≠ 0 then dictSet ps (NOTION_SCHEMA "moving_time_min") (.number (round2 m))
      else ps
  | none => ps

/-- The `if hr_zones: for zone_num, minutes in hr_zones.items(): ...` block
of `_convert_activity_to_properties`. -/
def addZoneProps (ps : NotionPage) (zoneMinutes? : Option (List (ℕ × ℚ))) :
    NotionPage :=
  match zoneMinutes? with
  | some m =>
      if !m.isEmpty then
        m.foldl (fun ps p => dictSet ps (hrZonePropName p.1) (.number p.2)) ps
      else ps
  | none => ps

/-- The `if drift is not None: ...` block of
`_convert_activity_to_properties` (every field of the drift dict is present
and non-`None`). -/
def addDriftProps (ps : NotionPage) (drift? : Option DriftMetrics) : NotionPage :=
  match drift? with
  | some d =>
      let ps := dictSet ps (NOTION_SCHEMA "hr_drift_pct") (.number (round2 d.drift_pct))
      let ps := dictSet ps (NOTION_SCHEMA "hr_1st_half_bpm") (.number (round1 d.avg_hr_1))
      let ps := dictSet ps (NOTION_SCHEMA "hr_2nd_half_bpm") (.number (round1 d.avg_hr_2))
      let ps := dictSet ps (NOTION_SCHEMA "speed_1st_half_mph")
        (.number (round2 (d.avg_vel_1_mps * METERS_PER_SECOND_TO_MPH)))
      dictSet ps (NOTION_SCHEMA "speed_2nd_half_mph")
        (.number (round2 (d.avg_vel_2_mps * METERS_PER_SECOND_TO_MPH)))
  | none => ps

/-- `if hr_data_quality: ...` of `_convert_activity_to_properties`. -/
def addHrDataQuality (ps : NotionPage) (quality : String) : NotionPage :=
  if quality ≠ "" then
    dictSet ps (NOTION_SCHEMA "hr_data_quality") (.select quality)
  else ps

/-- `if load_pts is not None and load_pts > 0: ...` of
`_convert_activity_to_properties`. -/
def addLoadPts (ps : NotionPage) (loadPts? : Option ℚ) : NotionPage :=
  match loadPts? with
  | some lp =>
      if 0 < lp then dictSet ps (NOTION_SCHEMA "load_pts") (.number (round2 lp))
      else ps
  | none => ps

/-- `if photo_url: ...` of `_convert_activity_to_properties`. -/
def addPhotoUrl (ps : NotionPage) (photoUrl? : Option String) : NotionPage :=
  match photoUrl? with
  | some u => if u ≠ "" then dictSet ps (NOTION_SCHEMA "photo_url") (.url u) else ps
  | none => ps

/-- The `if weather: ...` block of `_convert_activity_to_properties`. -/
def addWeatherProps (ps : NotionPage) (weather? : Option WeatherInfo) : NotionPage :=
  match weather? with
  | some w =>
      let ps :=
        match w.tempF with
        | some t => dictSet ps (NOTION_SCHEMA "temperature_f") (.number (round1 t))
        | none => ps
      if w.summary ≠ "" then
        dictSet ps (NOTION_SCHEMA "weather_conditions") (.richText w.summary)
      else ps
  | none => ps

/-- `NotionClient._convert_activity_to_properties(activity)`: build the
property dict for one activity, block by block in source order.  `nowIso` is
the rendered `datetime.now(...).isoformat()` written to "Last Synced".
Every property value the Python code stores is non-`None`, so values are
plain `PropValue`s. -/
def convertActivityToProperties (a : ActivityRecord) (nowIso : String) :
    NotionPage :=
  let activityId := toString a.id
  let sportType := a.type?.getD "Workout"
  let strippedName := pyStrip a.name
  let activityName :=
    if strippedName = "" then
      sportType ++ " – " ++ String.mk ((pyReplaceZ a.startDate).data.take 10)
    else strippedName
  let startDateIso := pyReplaceZ a.startDate
  let distanceMi := a.distance?.getD 0 * METERS_TO_MILES
  let elevationFt := a.totalElevationGain?.getD 0 * METERS_TO_FEET
  let elapsedTimeS := a.elapsedTime?.getD 0
  let movingTimeS := a.movingTime?.getD 0
  let durationMin := elapsedTimeS / SECONDS_PER_MINUTE
  let movingTimeMin : Option ℚ :=
    if movingTimeS ≠ 0 then some (movingTimeS / SECONDS_PER_MINUTE) else none
  let paceMinPerMi : Option ℚ :=
    if sportType ∈ (["Run", "TrailRun", "Walk", "Hike"] : List String) ∧
        0 < distanceMi ∧ 0 < movingTimeS then
      some (movingTimeS / distanceMi / SECONDS_PER_MINUTE)
    else none
  let props : NotionPage := []
  let props := dictSet props (NOTION_SCHEMA "name") (.title activityName)
  let props := dictSet props (NOTION_SCHEMA "activity_id") (.richText activityId)
  let props := dictSet props (NOTION_SCHEMA "date") (.date startDateIso)
  let props := dictSet props (NOTION_SCHEMA "sport") (.select sportType)
  let props := dictSet props (NOTION_SCHEMA "duration_min") (.number (round2 durationMin))
  let props := dictSet props (NOTION_SCHEMA "distance_mi") (.number (round2 distanceMi))
  let props := dictSet props (NOTION_SCHEMA "elevation_ft") (.number (round1 elevationFt))
  let props := addAvgHr props a.averageHeartrate?
  let props := addMaxHr props a.maxHeartrate?
  let props := addPace props paceMinPerMi
  let props := addMovingTimeMin props movingTimeMin
  let props := dictSet props (NOTION_SCHEMA "strava_url")
    (.url ("https://www.strava.com/activities/" ++ activityId))
  let props := dictSet props (NOTION_SCHEMA "last_synced") (.date nowIso)
  let props := addZoneProps props a.hrZoneMinutes
  let props := addDriftProps props a.driftMetrics
  let props := dictSet props (NOTION_SCHEMA "drift_eligible") (.checkbox a.driftEligible)
  let props := addHrDataQuality props a.hrDataQuality
  let props := addLoadPts props a.loadPts
  let props := addPhotoUrl props a.photoUrl
  addWeatherProps props a.weather

/-- Whether the destination schema, when filtering is enabled, keeps the
required "Activity ID" property (true of any correctly configured
activities database — "Activity ID" is a required property of the
destination table). -/
def SchemaKeepsActivityId : Option (List String) → Prop
  | some allowed => NOTION_SCHEMA "activity_id" ∈ allowed
  | none => True

/-! ### Schema cache and upsert (`NotionSchemaCache.get_schema`,
`NotionClient.upsert_activity`) -/

/-- `NotionSchemaCache.get_schema` on a successful schema fetch: the set of
property names, with an explicit zero-property result cached as `None`
(schema filtering disabled) — the soft-failure path.  A hard fetch failure
also caches `None`. -/
def schemaFromProperties (propNames : List String) : Option (List String) :=
  if propNames = [] then none else some propNames

/-- The property-preparation part of `NotionClient.upsert_activity`: add
"Sync Status" when the schema defines it (valued by whether an existing
page id was found), then filter by the schema — or, when schema filtering
is disabled, keep everything except the optional "Load (pts)" property,
which is conservatively dropped. -/
def buildUpsertProperties (properties : NotionPage)
    (allowedProperties : Option (List String)) (isUpdate : Bool) : NotionPage :=
  let properties :=
    match allowedProperties with
    | some allowed =>
        if allowed ≠ [] ∧ "Sync Status" ∈ allowed then
          dictSet properties "Sync Status"
            (.select (if isUpdate then "updated" else "created"))
        else properties
    | none => properties
  match allowedProperties with
  | some allowed => properties.filter (fun kv => kv.1 ∈ allowed)
  | none => properties.filter (fun kv => kv.1 ≠ NOTION_SCHEMA "load_pts")

/-- The Notion activities database: a list of pages in creation order. -/
abbrev NotionStore := List NotionPage

/-- `NotionClient.find_page_by_activity_id`: index of the first page whose
"Activity ID" rich-text property equals the given id. -/
def findPageByActivityId (store : NotionStore) (activityId : String) : Option ℕ :=
  store.findIdx?
    (fun page => lookupProp page (NOTION_SCHEMA "activity_id") = some (.richText activityId))

/-- Applying a written property dict to an existing page: Notion's
`pages.update` merges the written properties into the page, leaving
unwritten properties unchanged. -/
def mergeProps (existing written : NotionPage) : NotionPage :=
  written.foldl (fun acc kv => dictSet acc kv.1 kv.2) existing

/-- How the sync loop classifies a successful upsert. -/
inductive UpsertClass where
  | created
  | updated
  deriving DecidableEq, Repr

/-- One find-or-create upsert of an activity as the orchestrator performs
it: look up an existing page by activity id (`existing_map` /
`find_page_by_activity_id`), build the filtered property dict, then update
the found page or create a new one.  Returns the new store and the
classification recorded in the run stats. -/
def upsertActivityStep (store : NotionStore) (a : ActivityRecord)
    (nowIso : String) (allowedProperties : Option (List String)) :
    NotionStore × UpsertClass :=
  let activityId := toString a.id
  let existingIdx? := findPageByActivityId store activityId
  let written := buildUpsertProperties (convertActivityToProperties a nowIso)
    allowedProperties existingIdx?.isSome
  match existingIdx? with
  | some i => (store.set i (mergeProps (store.getD i []) written), .updated)
  | none => (store ++ [written], .created)

end StravaNotion

namespace StravaNotion

/-! ### Theorems: HR zone minutes -/

/-- Generalized-accumulator form of the zone-seconds accumulation loop. -/
theorem zoneCountsLoop_aux (hrv tv : List ℤ) (zones : List Zone)
    (z : ℕ) (hz : 1 ≤ z) (l : List ℕ) :
    ∀ f : ℕ → ℤ,
      (l.foldl
        (fun counts i =>
          match firstZoneIdx zones (hrv.getD i 0) with
          | some idx =>
              fun w =>
                if w = idx + 1 then counts w + max 0 (tv.getD (i + 1) 0 - tv.getD i 0)
                else counts w
          | none => counts)
        f) z
        = f z +
          ((l.filter
              (fun i => firstZoneIdx zones (hrv.getD i 0) = some (z - 1))).map
            (fun i => sampleDelta tv i)).sum := by
  induction l with
  | nil => intro f; simp
  | cons i l ih =>
    intro f
    rw [List.foldl_cons, ih, List.filter_cons]
    rcases h : firstZoneIdx zones (hrv.getD i 0) with _ | idx
    · simp only [h, reduceCtorEq, decide_False, Bool.false_eq_true, if_false]
    · by_cases hzi : z = idx + 1
      · have hd : decide ((some idx : Option ℕ) = some (z - 1)) = true := by
          simp only [Option.some.injEq, decide_eq_true_eq]
          omega
        simp only [h, hd, if_true, List.map_cons, List.sum_cons, if_pos hzi,
          sampleDelta]
        rw [add_assoc]
      · have hd : decide ((some idx : Option ℕ) = some (z - 1)) = false := by
          simp only [Option.some.injEq, decide_eq_false_iff_not]
          omega
        simp only [h, hd, Bool.false_eq_true, if_false, if_neg hzi]

/-- The accumulation loop computes, for every 1-based zone number, exactly
the sum of the clamped deltas of the samples first-matching that zone. -/
theorem zoneCountsLoop_eq (hrv tv : List ℤ) (n : ℕ) (zones : List Zone)
    (z : ℕ) (hz : 1 ≤ z) :
    zoneCountsLoop hrv tv n zones z = zoneSecondsSpec hrv tv zones n z := by
  unfold zoneCountsLoop zoneSecondsSpec
  rw [zoneCountsLoop_aux hrv tv zones z hz (List.range (n - 1)) (fun _ => 0)]
  simp

/-- `computeHrZoneMinutes` with fewer than 2 aligned samples is `none`. -/
theorem computeHrZoneMinutes_short (hrv tv : List ℤ) (zones : List Zone)
    (h : min hrv.length tv.length < 2) :
    computeHrZoneMinutes hrv tv zones = none := by
  unfold computeHrZoneMinutes
  split
  · rfl
  · simp only [h, if_true]

/-- `computeHrZoneMinutes` characterised: a `some` result is exactly the
per-zone map of rounded spec seconds. -/
theorem computeHrZoneMinutes_eq_spec (hrv tv : List ℤ) (zones : List Zone)
    (m : List (ℕ × ℚ)) (h : computeHrZoneMinutes hrv tv zones = some m) :
    m = (List.range zones.length).map (fun z =>
      (z + 1, round2 ((zoneSecondsSpec (hrv.take (min hrv.length tv.length))
          (tv.take (min hrv.length tv.length)) zones (min hrv.length tv.length)
          (z + 1) : ℚ) / SECONDS_PER_MINUTE))) := by
  unfold computeHrZoneMinutes at h
  split at h
  · exact absurd h (by simp)
  · simp only [] at h
    split at h
    · exact absurd h (by simp)
    · rw [Option.some.injEq] at h
      rw [← h]
      refine List.map_congr_left (fun z _ => ?_)
      rw [zoneCountsLoop_eq _ _ _ _ (z + 1) (by omega)]

/-- A matched first-zone index is a real index into the zone list whose
band contains the heart rate. -/
theorem firstZoneIdx_spec (zones : List Zone) (hr : ℤ) (idx : ℕ)
    (h : firstZoneIdx zones hr = some idx) :
    idx < zones.length ∧ zoneContains (zones.getD idx ⟨none, none⟩) hr = true := by
  unfold firstZoneIdx at h
  rw [List.findIdx?_eq_some_iff_getElem] at h
  obtain ⟨hlt, hp, -⟩ := h
  exact ⟨hlt, by rwa [List.getD_eq_getElem _ _ hlt]⟩

/-- C2: `compute_hr_zone_minutes` attributes each inter-sample time delta to
the (first-matching) zone whose half-open band `[min, max)` contains the
leading sample's heart rate (top zone unbounded above when `max` is null),
requires at least 2 aligned samples after truncating to the shorter length
and returns `None` otherwise (in particular for empty streams); on the
three-zone example with hr `[110,110,160,160]` and time `[0,30,60,90]` it
returns exactly `{1: 0.0, 2: 1.0, 3: 0.5}`. -/
theorem claim_C2 :
    (computeHrZoneMinutes [110, 110, 160, 160] [0, 30, 60, 90]
        [⟨some 0, some 100⟩, ⟨some 100, some 150⟩, ⟨some 150, none⟩]
      = some [(1, 0), (2, 1), (3, 1 / 2)]) ∧
    (∀ (hrv tv : List ℤ) (zones : List Zone),
      min hrv.length tv.length < 2 → computeHrZoneMinutes hrv tv zones = none) ∧
    (∀ zones : List Zone, computeHrZoneMinutes [] [] zones = none) ∧
    (∀ (hrv tv : List ℤ) (zones : List Zone) (m : List (ℕ × ℚ)),
      computeHrZoneMinutes hrv tv zones = some m →
        m = (List.range zones.length).map (fun z =>
          (z + 1, round2 ((zoneSecondsSpec (hrv.take (min hrv.length tv.length))
              (tv.take (min hrv.length tv.length)) zones (min hrv.length tv.length)
              (z + 1) : ℚ) / SECONDS_PER_MINUTE)))) ∧
    (∀ (zones : List Zone) (hr : ℤ) (idx : ℕ),
      firstZoneIdx zones hr = some idx →
        idx < zones.length ∧ zoneContains (zones.getD idx ⟨none, none⟩) hr = true) :=
  ⟨by with_unfolding_all decide,
   computeHrZoneMinutes_short,
   fun zones => computeHrZoneMinutes_short [] [] zones (by simp),
   computeHrZoneMinutes_eq_spec,
   firstZoneIdx_spec⟩

/-- Witness for C2: the hypothesis-bearing conjuncts applied at concrete
inputs. -/
theorem claim_C2_witness :
    computeHrZoneMinutes [100] [0] [⟨some 0, none⟩] = none ∧
    (0 < [Zone.mk (some 100) (some 150)].length ∧
      zoneContains ([Zone.mk (some 100) (some 150)].getD 0 ⟨none, none⟩) 110 = true) :=
  ⟨claim_C2.2.1 [100] [0] [⟨some 0, none⟩] (by decide),
   claim_C2.2.2.2.2 [⟨some 100, some 150⟩] 110 0 (by with_unfolding_all decide)⟩

/-! ### Theorems: rounding -/

/-- `pyRound` agrees with Mathlib's `round`. -/
theorem pyRound_eq_round (q : ℚ) : pyRound q = round q := by
  rw [pyRound, round_eq, Rat.floor_def' (q + 1 / 2), ← Rat.floor_def]

/-- `round2` of a nonnegative rational is nonnegative. -/
theorem round2_nonneg (q : ℚ) (h : 0 ≤ q) : 0 ≤ round2 q := by
  rw [round2, pyRound_eq_round]
  have h1 : (0 : ℤ) ≤ round (q * 100) := by
    rw [round_eq]
    refine Int.le_floor.mpr ?_
    push_cast
    nlinarith
  positivity

/-- `round2` moves a rational by at most `1/200`. -/
theorem abs_round2_sub (q : ℚ) : |round2 q - q| ≤ 1 / 200 := by
  rw [round2, pyRound_eq_round]
  have h := abs_sub_round (q * 100)
  rw [abs_sub_comm] at h
  have heq : (round (q * 100) : ℚ) / 100 - q = ((round (q * 100) : ℚ) - q * 100) / 100 := by
    ring
  rw [heq, abs_div]
  rw [show |(100 : ℚ)| = 100 by norm_num]
  linarith

/-- Summing 2-decimal roundings moves a list sum by at most `length / 200`. -/
theorem abs_sum_round2_sub (l : List ℚ) :
    |(l.map round2).sum - l.sum| ≤ (l.length : ℚ) / 200 := by
  induction l with
  | nil => simp
  | cons q l ih =>
    simp only [List.map_cons, List.sum_cons, List.length_cons]
    have h1 := abs_round2_sub q
    have h2 : round2 q + (l.map round2).sum - (q + l.sum)
        = (round2 q - q) + ((l.map round2).sum - l.sum) := by ring
    rw [h2]
    calc |(round2 q - q) + ((l.map round2).sum - l.sum)|
        ≤ |round2 q - q| + |(l.map round2).sum - l.sum| := abs_add _ _
      _ ≤ 1 / 200 + (l.length : ℚ) / 200 := add_le_add h1 ih
      _ = ((l.length : ℚ) + 1) / 200 := by ring
      _ = ((l.length + 1 : ℕ) : ℚ) / 200 := by push_cast; ring

/-! ### Theorems: zone histogram sums (C9, C10) -/

/-- Summing an indicator-style bump over a duplicate-free list that contains
the bumped element adds exactly the bump. -/
theorem indicator_sum_aux (zs : List ℕ) (g : ℕ → ℤ) (z₀ : ℕ) (c : ℤ)
    (hnd : zs.Nodup) (hz : z₀ ∈ zs) :
    (zs.map (fun z => if z = z₀ then c + g z else g z)).sum
      = c + (zs.map g).sum := by
  induction zs with
  | nil => cases hz
  | cons z zs ih =>
    rcases List.mem_cons.mp hz with h | hz'
    · subst h
      have hzn : z₀ ∉ zs := (List.nodup_cons.mp hnd).1
      simp only [List.map_cons, List.sum_cons, if_pos rfl, eq_self_iff_true, if_true]
      have hmap : (zs.map (fun w => if w = z₀ then c + g w else g w)).sum
          = (zs.map g).sum := by
        refine congrArg List.sum (List.map_congr_left ?_)
        intro a ha
        rw [if_neg]
        rintro rfl
        exact hzn ha
      rw [hmap]
      ring
    · have hne : z ≠ z₀ := by
        rintro rfl
        exact (List.nodup_cons.mp hnd).1 hz'
      simp only [List.map_cons, List.sum_cons, if_neg hne]
      rw [ih (List.nodup_cons.mp hnd).2 hz']
      ring

/-- Partitioning a filtered sum over the possible values of a partial index
function: summing, over every index value below the bound, the deltas of the
samples mapped to that value gives the sum over exactly the matched
samples. -/
theorem partition_filter_sum (F : ℕ → Option ℕ) (d : ℕ → ℤ) (k : ℕ) :
    ∀ l : List ℕ, (∀ i ∈ l, ∀ z, F i = some z → z < k) →
      ((List.range k).map
          (fun z => ((l.filter (fun i => F i = some z)).map d).sum)).sum
        = ((l.filter (fun i => (F i).isSome)).map d).sum := by
  intro l
  induction l with
  | nil => intro _; simp
  | cons i l ih =>
    intro hb
    have hl := ih (fun j hj => hb j (List.mem_cons_of_mem _ hj))
    rcases hF : F i with _ | z₀
    · have h1 : ∀ z : ℕ, (i :: l).filter (fun j => F j = some z)
          = l.filter (fun j => F j = some z) := by
        intro z
        rw [List.filter_cons]
        simp [hF]
      have h2 : (i :: l).filter (fun j => (F j).isSome)
          = l.filter (fun j => (F j).isSome) := by
        rw [List.filter_cons]
        simp [hF]
      rw [h2, ← hl]
      refine congrArg List.sum (List.map_congr_left ?_)
      intro z _
      rw [h1]
    · have hz₀ : z₀ < k := hb i (List.mem_cons_self i l) z₀ hF
      have h1 : ∀ z : ℕ, (i :: l).filter (fun j => F j = some z)
          = if z = z₀ then i :: l.filter (fun j => F j = some z)
            else l.filter (fun j => F j = some z) := by
        intro z
        rw [List.filter_cons]
        by_cases hzz : z = z₀
        · subst hzz
          simp [hF]
        · simp only [hF, if_neg hzz]
          have hdz : ¬ ((some z₀ : Option ℕ) = some z) := by
            simp only [Option.some.injEq]
            omega
          simp [hdz]
      have h2 : (i :: l).filter (fun j => (F j).isSome)
          = i :: l.filter (fun j => (F j).isSome) := by
        rw [List.filter_cons]
        simp [hF]
      have h3 : ((List.range k).map
            (fun z => (((i :: l).filter (fun j => F j = some z)).map d).sum)).sum
          = ((List.range k).map
            (fun z => if z = z₀ then d i + ((l.filter (fun j => F j = some z)).map d).sum
              else ((l.filter (fun j => F j = some z)).map d).sum)).sum := by
        refine congrArg List.sum (List.map_congr_left ?_)
        intro z _
        rw [h1 z]
        by_cases hzz : z = z₀
        · simp [hzz]
        · simp [hzz]
      rw [h3, indicator_sum_aux _ _ z₀ (d i) (List.nodup_range k)
        (List.mem_range.mpr hz₀), hl, h2]
      simp

/-- A filtered sum of nonnegative deltas is at most the full sum. -/
theorem sum_filter_le_sum (p : ℕ → Bool) (d : ℕ → ℤ) (hd : ∀ i, 0 ≤ d i) :
    ∀ l : List ℕ, ((l.filter p).map d).sum ≤ (l.map d).sum := by
  intro l
  induction l with
  | nil => simp
  | cons i l ih =>
    rw [List.filter_cons, List.map_cons, List.sum_cons]
    by_cases hp : p i
    · simp only [hp, if_true, List.map_cons, List.sum_cons]
      omega
    · simp only [hp, Bool.false_eq_true, if_false]
      have := hd i
      omega

/-- Sample deltas are clamped to be nonnegative. -/
theorem sampleDelta_nonneg (tv : List ℤ) (i : ℕ) : 0 ≤ sampleDelta tv i :=
  le_max_left _ _

/-- Spec seconds per zone are nonnegative. -/
theorem zoneSecondsSpec_nonneg (hrv tv : List ℤ) (zones : List Zone)
    (n z : ℕ) : 0 ≤ zoneSecondsSpec hrv tv zones n z := by
  unfold zoneSecondsSpec
  refine List.sum_nonneg ?_
  intro x hx
  obtain ⟨i, _, rfl⟩ := List.mem_map.mp hx
  exact sampleDelta_nonneg tv i

/-- Telescoping: for a sorted time list, the sum of the clamped
inter-sample deltas is last-minus-first. -/
theorem coveredDuration_sorted :
    ∀ l : List ℤ, l.Sorted (· ≤ ·) →
      coveredDuration l l.length = l.getD (l.length - 1) 0 - l.getD 0 0 := by
  intro l
  induction l with
  | nil => intro _; simp [coveredDuration]
  | cons a l ih =>
    intro hs
    cases l with
    | nil => simp [coveredDuration]
    | cons b l' =>
      have hab : a ≤ b := (List.sorted_cons.mp hs).1 b (List.mem_cons_self b l')
      have hs' : (b :: l').Sorted (· ≤ ·) := (List.sorted_cons.mp hs).2
      have hstep : coveredDuration (a :: b :: l') (a :: b :: l').length
          = (b - a) + coveredDuration (b :: l') (b :: l').length := by
        rw [coveredDuration, coveredDuration]
        have hlen : (a :: b :: l').length - 1 = ((b :: l').length - 1) + 1 := by
          simp only [List.length_cons]
          omega
        rw [hlen, List.range_succ_eq_map, List.map_cons, List.sum_cons, List.map_map]
        have hd0 : sampleDelta (a :: b :: l') 0 = b - a := by
          simp only [sampleDelta, List.getD_cons_succ, List.getD_cons_zero]
          exact max_eq_right (by omega)
        have hmap : ((List.range ((b :: l').length - 1)).map
              ((fun i => sampleDelta (a :: b :: l') i) ∘ (fun i => i + 1))).sum
            = ((List.range ((b :: l').length - 1)).map
              (fun i => sampleDelta (b :: l') i)).sum := by
          refine congrArg List.sum (List.map_congr_left ?_)
          intro i _
          simp only [Function.comp_apply, sampleDelta, List.getD_cons_succ]
        rw [hd0, hmap]
      rw [hstep, ih hs']
      have h1 : (a :: b :: l').getD ((a :: b :: l').length - 1) 0
          = (b :: l').getD ((b :: l').length - 1) 0 := by
        simp only [List.length_cons, Nat.add_sub_cancel]
        rw [List.getD_cons_succ]
      rw [h1]
      simp only [List.getD_cons_zero]
      omega


/-- Division distributes over a list sum. -/
theorem list_sum_map_div (l : List ℚ) (c : ℚ) :
    (l.map (fun x => x / c)).sum = l.sum / c := by
  induction l with
  | nil => simp
  | cons a l ih =>
    simp only [List.map_cons, List.sum_cons, ih]
    rw [add_div]

/-- C9: every value of a zone-minutes histogram is nonnegative; when every
leading heart-rate sample is covered by some zone band, the per-zone seconds
sum to the total covered stream duration, and the sum of the minute values
equals the covered duration in minutes within rounding tolerance
(at most `1/200` minute per zone); for a sorted time stream the covered
duration is last-minus-first. -/
theorem claim_C9 (hrv tv : List ℤ) (zones : List Zone) (m : List (ℕ × ℚ))
    (n : ℕ) (hrv' tv' : List ℤ)
    (hm : computeHrZoneMinutes hrv tv zones = some m)
    (hn : n = min hrv.length tv.length)
    (hhrv : hrv' = hrv.take n) (htv : tv' = tv.take n) :
    (∀ p ∈ m, 0 ≤ p.2) ∧
    ((∀ i ∈ List.range (n - 1), (firstZoneIdx zones (hrv'.getD i 0)).isSome) →
      ((List.range zones.length).map
          (fun z => zoneSecondsSpec hrv' tv' zones n (z + 1))).sum
        = coveredDuration tv' n ∧
      |(m.map (fun p => p.2)).sum - (coveredDuration tv' n : ℚ) / SECONDS_PER_MINUTE|
        ≤ (zones.length : ℚ) / 200) ∧
    (List.Sorted (· ≤ ·) tv' →
      coveredDuration tv' n = tv'.getD (n - 1) 0 - tv'.getD 0 0) := by
  subst hn hhrv htv
  have hchar := computeHrZoneMinutes_eq_spec hrv tv zones m hm
  refine ⟨?_, ?_, ?_⟩
  · intro p hp
    rw [hchar] at hp
    obtain ⟨z, -, rfl⟩ := List.mem_map.mp hp
    refine round2_nonneg _ ?_
    have := zoneSecondsSpec_nonneg (hrv.take (min hrv.length tv.length))
      (tv.take (min hrv.length tv.length)) zones (min hrv.length tv.length) (z + 1)
    have hpos : (0 : ℚ) < SECONDS_PER_MINUTE := by norm_num [SECONDS_PER_MINUTE]
    positivity
  · intro hcov
    have hzspec : ∀ z : ℕ,
        zoneSecondsSpec (hrv.take (min hrv.length tv.length))
          (tv.take (min hrv.length tv.length)) zones (min hrv.length tv.length) (z + 1)
        = (((List.range (min hrv.length tv.length - 1)).filter
            (fun i => firstZoneIdx zones ((hrv.take (min hrv.length tv.length)).getD i 0)
              = some z)).map
          (fun i => sampleDelta (tv.take (min hrv.length tv.length)) i)).sum := by
      intro z
      unfold zoneSecondsSpec
      simp only [Nat.add_sub_cancel]
    have hF : ∀ i ∈ List.range (min hrv.length tv.length - 1), ∀ z : ℕ,
        firstZoneIdx zones ((hrv.take (min hrv.length tv.length)).getD i 0) = some z →
          z < zones.length := by
      intro i _ z hz
      exact (firstZoneIdx_spec zones _ z hz).1
    have hpart := partition_filter_sum
      (fun i => firstZoneIdx zones ((hrv.take (min hrv.length tv.length)).getD i 0))
      (fun i => sampleDelta (tv.take (min hrv.length tv.length)) i)
      zones.length (List.range (min hrv.length tv.length - 1)) hF
    have hfull : (List.range (min hrv.length tv.length - 1)).filter
        (fun i => (firstZoneIdx zones
          ((hrv.take (min hrv.length tv.length)).getD i 0)).isSome)
        = List.range (min hrv.length tv.length - 1) :=
      List.filter_eq_self.mpr hcov
    have hsumeq : ((List.range zones.length).map
        (fun z => zoneSecondsSpec (hrv.take (min hrv.length tv.length))
          (tv.take (min hrv.length tv.length)) zones (min hrv.length tv.length)
          (z + 1))).sum
        = coveredDuration (tv.take (min hrv.length tv.length))
            (min hrv.length tv.length) := by
      calc ((List.range zones.length).map
          (fun z => zoneSecondsSpec (hrv.take (min hrv.length tv.length))
            (tv.take (min hrv.length tv.length)) zones (min hrv.length tv.length)
            (z + 1))).sum
          = ((List.range zones.length).map
            (fun z => (((List.range (min hrv.length tv.length - 1)).filter
                (fun i => firstZoneIdx zones
                  ((hrv.take (min hrv.length tv.length)).getD i 0) = some z)).map
              (fun i => sampleDelta (tv.take (min hrv.length tv.length)) i)).sum)).sum := by
            exact congrArg List.sum (List.map_congr_left (fun z _ => hzspec z))
        _ = (((List.range (min hrv.length tv.length - 1)).filter
              (fun i => (firstZoneIdx zones
                ((hrv.take (min hrv.length tv.length)).getD i 0)).isSome)).map
            (fun i => sampleDelta (tv.take (min hrv.length tv.length)) i)).sum := hpart
        _ = coveredDuration (tv.take (min hrv.length tv.length))
              (min hrv.length tv.length) := by
            rw [hfull]
            rfl
    refine ⟨hsumeq, ?_⟩
    have hmv : m.map (fun p => p.2)
        = ((List.range zones.length).map
          (fun z => ((zoneSecondsSpec (hrv.take (min hrv.length tv.length))
            (tv.take (min hrv.length tv.length)) zones (min hrv.length tv.length)
            (z + 1) : ℤ) : ℚ) / SECONDS_PER_MINUTE)).map round2 := by
      rw [hchar, List.map_map, List.map_map]
      rfl
    have hsum0 : ((List.range zones.length).map
        (fun z => ((zoneSecondsSpec (hrv.take (min hrv.length tv.length))
          (tv.take (min hrv.length tv.length)) zones (min hrv.length tv.length)
          (z + 1) : ℤ) : ℚ) / SECONDS_PER_MINUTE)).sum
        = (coveredDuration (tv.take (min hrv.length tv.length))
            (min hrv.length tv.length) : ℚ) / SECONDS_PER_MINUTE := by
      have hcomp : (List.range zones.length).map
          (fun z => ((zoneSecondsSpec (hrv.take (min hrv.length tv.length))
            (tv.take (min hrv.length tv.length)) zones (min hrv.length tv.length)
            (z + 1) : ℤ) : ℚ) / SECONDS_PER_MINUTE)
          = ((List.range zones.length).map
            (fun z => ((zoneSecondsSpec (hrv.take (min hrv.length tv.length))
              (tv.take (min hrv.length tv.length)) zones (min hrv.length tv.length)
              (z + 1) : ℤ) : ℚ))).map (fun x => x / SECONDS_PER_MINUTE) := by
        rw [List.map_map]
        rfl
      rw [hcomp, list_sum_map_div]
      congr 1
      have hcast : (List.range zones.length).map
          (fun z => ((zoneSecondsSpec (hrv.take (min hrv.length tv.length))
            (tv.take (min hrv.length tv.length)) zones (min hrv.length tv.length)
            (z + 1) : ℤ) : ℚ))
          = ((List.range zones.length).map
            (fun z => zoneSecondsSpec (hrv.take (min hrv.length tv.length))
              (tv.take (min hrv.length tv.length)) zones (min hrv.length tv.length)
              (z + 1))).map (Int.cast : ℤ → ℚ) := by
        rw [List.map_map]
        rfl
      rw [hcast, ← Int.cast_list_sum, hsumeq]
    rw [hmv, ← hsum0]
    have := abs_sum_round2_sub ((List.range zones.length).map
      (fun z => ((zoneSecondsSpec (hrv.take (min hrv.length tv.length))
        (tv.take (min hrv.length tv.length)) zones (min hrv.length tv.length)
        (z + 1) : ℤ) : ℚ) / SECONDS_PER_MINUTE))
    simpa using this
  · intro hsort
    have hnle : min hrv.length tv.length ≤ tv.length := min_le_right _ _
    have hlen : (tv.take (min hrv.length tv.length)).length
        = min hrv.length tv.length := by
      rw [List.length_take]
      omega
    have h := coveredDuration_sorted (tv.take (min hrv.length tv.length)) hsort
    rw [hlen] at h
    exact h

/-- Witness for C9: the fully covered three-zone scenario. -/
theorem claim_C9_witness :
    ((List.range 3).map (fun z =>
        zoneSecondsSpec [110, 110, 160, 160] [0, 30, 60, 90]
          [⟨some 0, some 100⟩, ⟨some 100, some 150⟩, ⟨some 150, none⟩] 4 (z + 1))).sum
      = coveredDuration [0, 30, 60, 90] 4 ∧
    coveredDuration [0, 30, 60, 90] 4
      = ([0, 30, 60, 90] : List ℤ).getD 3 0 - ([0, 30, 60, 90] : List ℤ).getD 0 0 := by
  have h := claim_C9 [110, 110, 160, 160] [0, 30, 60, 90]
    [⟨some 0, some 100⟩, ⟨some 100, some 150⟩, ⟨some 150, none⟩]
    [(1, 0), (2, 1), (3, 1 / 2)] 4 [110, 110, 160, 160] [0, 30, 60, 90]
    (by with_unfolding_all decide) (by decide) (by decide) (by decide)
  exact ⟨(h.2.1 (by decide)).1, h.2.2 (by decide)⟩

/-- C10: for every input stream and zone list — overlapping zones, gaps,
out-of-band heart rates and non-monotonic times included — each inter-sample
delta is attributed to at most one zone (the first in list order whose band
contains the leading sample's heart rate), negative deltas are clamped to
zero, the histogram's total seconds equal the sum over exactly the matched
samples and never exceed the covered duration, and an unmatched sample
contributes nothing. -/
theorem claim_C10 (hrv tv : List ℤ) (zones : List Zone) (m : List (ℕ × ℚ))
    (n : ℕ) (hrv' tv' : List ℤ)
    (hm : computeHrZoneMinutes hrv tv zones = some m)
    (hn : n = min hrv.length tv.length)
    (hhrv : hrv' = hrv.take n) (htv : tv' = tv.take n) :
    m = (List.range zones.length).map (fun z =>
      (z + 1, round2 ((zoneSecondsSpec hrv' tv' zones n (z + 1) : ℚ)
        / SECONDS_PER_MINUTE))) ∧
    ((List.range zones.length).map
        (fun z => zoneSecondsSpec hrv' tv' zones n (z + 1))).sum
      = (((List.range (n - 1)).filter
          (fun i => (firstZoneIdx zones (hrv'.getD i 0)).isSome)).map
        (fun i => sampleDelta tv' i)).sum ∧
    ((List.range zones.length).map
        (fun z => zoneSecondsSpec hrv' tv' zones n (z + 1))).sum
      ≤ coveredDuration tv' n ∧
    (∀ i, 0 ≤ sampleDelta tv' i) := by
  subst hn hhrv htv
  have hzspec : ∀ z : ℕ,
      zoneSecondsSpec (hrv.take (min hrv.length tv.length))
        (tv.take (min hrv.length tv.length)) zones (min hrv.length tv.length) (z + 1)
      = (((List.range (min hrv.length tv.length - 1)).filter
          (fun i => firstZoneIdx zones ((hrv.take (min hrv.length tv.length)).getD i 0)
            = some z)).map
        (fun i => sampleDelta (tv.take (min hrv.length tv.length)) i)).sum := by
    intro z
    unfold zoneSecondsSpec
    simp only [Nat.add_sub_cancel]
  have hF : ∀ i ∈ List.range (min hrv.length tv.length - 1), ∀ z : ℕ,
      firstZoneIdx zones ((hrv.take (min hrv.length tv.length)).getD i 0) = some z →
        z < zones.length := by
    intro i _ z hz
    exact (firstZoneIdx_spec zones _ z hz).1
  have hpart := partition_filter_sum
    (fun i => firstZoneIdx zones ((hrv.take (min hrv.length tv.length)).getD i 0))
    (fun i => sampleDelta (tv.take (min hrv.length tv.length)) i)
    zones.length (List.range (min hrv.length tv.length - 1)) hF
  have hmatched : ((List.range zones.length).map
      (fun z => zoneSecondsSpec (hrv.take (min hrv.length tv.length))
        (tv.take (min hrv.length tv.length)) zones (min hrv.length tv.length)
        (z + 1))).sum
      = (((List.range (min hrv.length tv.length - 1)).filter
          (fun i => (firstZoneIdx zones
            ((hrv.take (min hrv.length tv.length)).getD i 0)).isSome)).map
        (fun i => sampleDelta (tv.take (min hrv.length tv.length)) i)).sum := by
    rw [← hpart]
    exact congrArg List.sum (List.map_congr_left (fun z _ => hzspec z))
  refine ⟨computeHrZoneMinutes_eq_spec hrv tv zones m hm, hmatched, ?_, ?_⟩
  · rw [hmatched]
    exact sum_filter_le_sum _ _ (fun i => sampleDelta_nonneg _ i)
      (List.range (min hrv.length tv.length - 1))
  · intro i
    exact sampleDelta_nonneg _ i

/-- Witness for C10: overlapping zones, an out-of-band heart rate and a
negative time delta. -/
theorem claim_C10_witness :
    ((List.range 2).map (fun z =>
        zoneSecondsSpec [120, 50, 120] [0, 30, 20]
          [⟨some 60, some 200⟩, ⟨some 100, some 150⟩] 3 (z + 1))).sum
      ≤ coveredDuration [0, 30, 20] 3 ∧
    (0 : ℤ) ≤ sampleDelta [0, 30, 20] 1 := by
  have h := claim_C10 [120, 50, 120] [0, 30, 20]
    [⟨some 60, some 200⟩, ⟨some 100, some 150⟩]
    [(1, 1 / 2), (2, 0)] 3 [120, 50, 120] [0, 30, 20]
    (by with_unfolding_all decide) (by decide) (by decide) (by decide)
  exact ⟨h.2.2.1, h.2.2.2 1⟩


/-! ### Theorems: zone-weighted load points (C4) -/

/-- `round2` of a rational at least `1/200` is positive. -/
theorem round2_pos (q : ℚ) (h : 1 / 200 ≤ q) : 0 < round2 q := by
  rw [round2, pyRound_eq_round]
  have h1 : (1 : ℤ) ≤ round (q * 100) := by
    rw [round_eq]
    refine Int.le_floor.mpr ?_
    push_cast
    nlinarith
  have h2 : (0 : ℚ) < (round (q * 100) : ℚ) := by
    exact_mod_cast lt_of_lt_of_le Int.zero_lt_one h1
  positivity

/-- C4 counterexample: on the histogram `{1: 0.004}` the weighted total is
`0.004 > 0`, and the function returns `round(0.004, 2) = 0.0` — a value that
is neither null nor strictly positive, so "null or > 0" fails. -/
theorem claim_C4_counterexample :
    computeZoneWeightedLoadPoints [(1, 1 / 250)] = some 0 ∧
    ¬ (computeZoneWeightedLoadPoints [(1, 1 / 250)] = none ∨
        ∃ v, computeZoneWeightedLoadPoints [(1, 1 / 250)] = some v ∧ 0 < v) := by
  have h0 : computeZoneWeightedLoadPoints [(1, 1 / 250)] = some 0 := by
    with_unfolding_all decide
  refine ⟨h0, ?_⟩
  rintro (h | ⟨v, hv, hpos⟩)
  · rw [h0] at h
    exact Option.noConfusion h
  · rw [h0, Option.some.injEq] at hv
    rw [← hv] at hpos
    exact lt_irrefl 0 hpos

/-- C4 (amended): for every zone-minutes histogram,
`compute_zone_weighted_load_points` returns either null (empty histogram or
non-positive weighted total) or the weighted sum `Σ minutes_i × i`
(`i = 1..5`) rounded to 2 decimals — which is nonnegative, and strictly
positive whenever the weighted total is at least `0.005` (in particular for
every histogram produced by `compute_hr_zone_minutes`, whose values are
multiples of `0.01`). -/
theorem claim_C4_amended (zm : List (ℕ × ℚ)) :
    computeZoneWeightedLoadPoints zm = none ∨
    (∃ v, computeZoneWeightedLoadPoints zm = some v ∧
      v = round2 (weightedLoadTotal zm) ∧ 0 < weightedLoadTotal zm ∧ 0 ≤ v ∧
      (1 / 200 ≤ weightedLoadTotal zm → 0 < v)) := by
  unfold computeZoneWeightedLoadPoints
  split
  · exact Or.inl rfl
  · simp only []
    split
    · rename_i hpos
      exact Or.inr ⟨round2 (weightedLoadTotal zm), rfl, rfl, hpos,
        round2_nonneg _ (le_of_lt hpos), fun hge => round2_pos _ hge⟩
    · exact Or.inl rfl

/-- Witness for C4: on `{2: 10}` the amended theorem yields a positive
result. -/
theorem claim_C4_witness :
    ∃ v, computeZoneWeightedLoadPoints [(2, 10)] = some v ∧ 0 < v := by
  rcases claim_C4_amended [(2, 10)] with h | ⟨v, hv, -, -, -, hpos⟩
  · exact absurd h (by with_unfolding_all decide)
  · exact ⟨v, hv, hpos (by with_unfolding_all decide)⟩

/-! ### Theorems: rolling loads (C7) -/

/-- Generalized-accumulator form of the rolling-loads fold. -/
theorem rollingFold_aux (today : ℤ) :
    ∀ (l : List (ℤ × Option ℚ)) (acc : ℚ × ℚ),
      (l.foldl
        (fun (acc : ℚ × ℚ) entry =>
          let daysAgo := today - entry.1
          let loadPts := entry.2.getD 0
          let l7 := if 0 ≤ daysAgo ∧ daysAgo ≤ 6 then acc.1 + loadPts else acc.1
          let l28 := if 0 ≤ daysAgo ∧ daysAgo ≤ 27 then acc.2 + loadPts else acc.2
          (l7, l28))
        acc)
      = (acc.1 + ((l.filter
            (fun e => decide (0 ≤ today - e.1 ∧ today - e.1 ≤ 6))).map
          (fun e => e.2.getD 0)).sum,
         acc.2 + ((l.filter
            (fun e => decide (0 ≤ today - e.1 ∧ today - e.1 ≤ 27))).map
          (fun e => e.2.getD 0)).sum) := by
  intro l
  induction l with
  | nil => intro acc; simp
  | cons e l ih =>
    intro acc
    rw [List.foldl_cons]
    simp only []
    by_cases h7 : 0 ≤ today - e.1 ∧ today - e.1 ≤ 6
    · have h28 : 0 ≤ today - e.1 ∧ today - e.1 ≤ 27 := ⟨h7.1, by omega⟩
      have d7 := decide_eq_true h7
      have d28 := decide_eq_true h28
      rw [if_pos h7, if_pos h28, ih, List.filter_cons, List.filter_cons]
      simp only [d7, d28, if_true, List.map_cons, List.sum_cons]
      refine Prod.ext ?_ ?_ <;> dsimp only <;> ring
    · by_cases h28 : 0 ≤ today - e.1 ∧ today - e.1 ≤ 27
      · have d7 := decide_eq_false h7
        have d28 := decide_eq_true h28
        rw [if_neg h7, if_pos h28, ih, List.filter_cons, List.filter_cons]
        simp only [d7, d28, if_true, Bool.false_eq_true, if_false,
          List.map_cons, List.sum_cons]
        refine Prod.ext ?_ ?_ <;> dsimp only <;> ring
      · have d7 := decide_eq_false h7
        have d28 := decide_eq_false h28
        rw [if_neg h7, if_neg h28, ih, List.filter_cons, List.filter_cons]
        simp only [d7, d28, Bool.false_eq_true, if_false]

/-- C7: `compute_rolling_loads` sums the daily load totals of exactly the
dates within the inclusive windows `[today−6, today]` (7-day) and
`[today−27, today]` (28-day), missing days contributing zero (absent
entries simply do not appear in the sum); when only the as-of date itself
carries load 5, both totals are 5. -/
theorem claim_C7 (dailySummaries : List (ℤ × Option ℚ)) (today : ℤ) (d0 : ℤ) :
    computeRollingLoads dailySummaries today
      = (round2 (((dailySummaries.filter
            (fun e => decide (0 ≤ today - e.1 ∧ today - e.1 ≤ 6))).map
          (fun e => e.2.getD 0)).sum),
         round2 (((dailySummaries.filter
            (fun e => decide (0 ≤ today - e.1 ∧ today - e.1 ≤ 27))).map
          (fun e => e.2.getD 0)).sum)) ∧
    computeRollingLoads [(d0, some 5)] d0 = (5, 5) := by
  constructor
  · unfold computeRollingLoads
    rw [rollingFold_aux]
    simp
  · unfold computeRollingLoads
    rw [rollingFold_aux]
    have h5 : round2 5 = 5 := by with_unfolding_all decide
    simp only [List.filter_cons, List.filter_nil, sub_self]
    norm_num [h5]

/-! ### Theorems: run statistics and the failure-rate gate (C6) -/

/-- The sync-loop fold leaves `fetched`/`skipped` unchanged and counts every
processed outcome exactly once in `created + updated + failed`. -/
theorem runStats_aux :
    ∀ (outs : List UpsertOutcome) (s : SyncStats),
      (outs.foldl processOutcome s).fetched = s.fetched ∧
      (outs.foldl processOutcome s).skipped = s.skipped ∧
      (outs.foldl processOutcome s).created + (outs.foldl processOutcome s).updated
          + (outs.foldl processOutcome s).failed
        = s.created + s.updated + s.failed + outs.length := by
  intro outs
  induction outs with
  | nil => intro s; simp
  | cons o outs ih =>
    intro s
    rw [List.foldl_cons]
    obtain ⟨h1, h2, h3⟩ := ih (processOutcome s o)
    refine ⟨?_, ?_, ?_⟩
    · rw [h1]; cases o <;> rfl
    · rw [h2]; cases o <;> rfl
    · rw [h3, List.length_cons]
      cases o <;> simp [processOutcome] <;> omega

/-- C6: the failure-rate circuit breaker.  Every fetched activity is
processed and counted (`created + updated + failed = fetched`, `skipped`
stays 0 — no mid-run abort on individual failures), and after the summary is
logged the run exits non-zero exactly when `fetched > 0` and
`failed / fetched` exceeds the threshold. -/
theorem claim_C6 (outcomes : List UpsertOutcome) (threshold : ℚ) :
    (runStats outcomes).fetched = outcomes.length ∧
    (runStats outcomes).created + (runStats outcomes).updated
        + (runStats outcomes).failed = outcomes.length ∧
    (runStats outcomes).skipped = 0 ∧
    (0 < (runStats outcomes).fetched →
      threshold < ((runStats outcomes).failed : ℚ) / ((runStats outcomes).fetched : ℚ) →
      finishRun (runStats outcomes) threshold
        = [RunEvent.logSummary (runStats outcomes), RunEvent.exitNonZero]) ∧
    (¬ (0 < (runStats outcomes).fetched ∧
        threshold < ((runStats outcomes).failed : ℚ) / ((runStats outcomes).fetched : ℚ)) →
      finishRun (runStats outcomes) threshold
        = [RunEvent.logSummary (runStats outcomes), RunEvent.syncCompleted]) := by
  obtain ⟨h1, h2, h3⟩ := runStats_aux outcomes
    { fetched := outcomes.length, created := 0, updated := 0, skipped := 0, failed := 0 }
  refine ⟨h1, by simpa using h3, h2, ?_, ?_⟩
  · intro hf hr
    unfold finishRun
    rw [if_pos ⟨hf, hr⟩]
    rfl
  · intro hn
    unfold finishRun
    rw [if_neg hn]
    rfl

/-- Witness for C6: 4 fetched, 1 failed (`0.25 > 0.2`) → the summary is
logged and the run exits non-zero. -/
theorem claim_C6_witness :
    finishRun (runStats [UpsertOutcome.okNew, UpsertOutcome.okExisting,
        UpsertOutcome.okExisting, UpsertOutcome.upsertFailed]) DEFAULT_FAILURE_THRESHOLD
      = [RunEvent.logSummary (runStats [UpsertOutcome.okNew, UpsertOutcome.okExisting,
          UpsertOutcome.okExisting, UpsertOutcome.upsertFailed]),
         RunEvent.exitNonZero] :=
  (claim_C6 [UpsertOutcome.okNew, UpsertOutcome.okExisting,
      UpsertOutcome.okExisting, UpsertOutcome.upsertFailed]
    DEFAULT_FAILURE_THRESHOLD).2.2.2.1
    (by with_unfolding_all decide) (by with_unfolding_all decide)


/-! ### Theorems: HR drift (C8) -/

/-- C8: whenever `compute_hr_drift` returns a result, both halves (split at
the time-weighted midpoint, straddling segments split proportionally) have
positive covered duration, both average velocities are strictly above the
0.1 m/s noise floor, and `drift_pct` is exactly
`((avgHr2/avgVel2) − (avgHr1/avgVel1)) / (avgHr1/avgVel1) × 100`;
contrapositively, the function returns null whenever either half has zero
covered duration or either average velocity is at or below the floor. -/
theorem claim_C8 (hrv tv : List ℤ) (vel : List ℚ) (movingTimeS : ℤ)
    (distanceM : ℚ) (r : DriftMetrics)
    (h : computeHrDrift hrv tv vel movingTimeS distanceM = some r) :
    let n := min hrv.length (min tv.length vel.length)
    let tv' := tv.take n
    let totalDuration := tv'.getD (n - 1) 0 - tv'.getD 0 0
    let midpoint : ℚ := (tv'.getD 0 0 : ℚ) + (totalDuration : ℚ) / 2
    let s := driftSums (hrv.take n) tv' (vel.take n) n midpoint
    0 < s.dt1 ∧ 0 < s.dt2 ∧
    DRIFT_MIN_VELOCITY_THRESHOLD_MPS < s.velSum1 / s.dt1 ∧
    DRIFT_MIN_VELOCITY_THRESHOLD_MPS < s.velSum2 / s.dt2 ∧
    r.avg_hr_1 = s.hrSum1 / s.dt1 ∧ r.avg_hr_2 = s.hrSum2 / s.dt2 ∧
    r.avg_vel_1_mps = s.velSum1 / s.dt1 ∧ r.avg_vel_2_mps = s.velSum2 / s.dt2 ∧
    r.drift_pct = (r.avg_hr_2 / r.avg_vel_2_mps - r.avg_hr_1 / r.avg_vel_1_mps)
        / (r.avg_hr_1 / r.avg_vel_1_mps) * 100 := by
  unfold computeHrDrift at h
  simp only [] at h
  split at h
  · exact absurd h (by simp)
  · split at h
    · exact absurd h (by simp)
    · split at h
      · exact absurd h (by simp)
      · rename_i hguard
        split at h
        · exact absurd h (by simp)
        · rename_i hvel
          split at h
          · exact absurd h (by simp)
          · rw [Option.some.injEq] at h
            subst h
            rw [not_or] at hguard hvel
            obtain ⟨hd1, hd2⟩ := hguard
            obtain ⟨hv1, hv2⟩ := hvel
            rw [not_le] at hd1 hd2 hv1 hv2
            exact ⟨hd1, hd2, hv1, hv2, rfl, rfl, rfl, rfl, rfl⟩

/-- Witness for C8: a constant-pace stream whose drift evaluates to 0 with
the formula's ingredients all positive. -/
theorem claim_C8_witness :
    computeHrDrift [100, 100, 100] [0, 10, 20] [2, 2, 2] 0 0
      = some ⟨0, 100, 100, 2, 2⟩ ∧
    (DriftMetrics.mk 0 100 100 2 2).drift_pct
      = ((DriftMetrics.mk 0 100 100 2 2).avg_hr_2
            / (DriftMetrics.mk 0 100 100 2 2).avg_vel_2_mps
          - (DriftMetrics.mk 0 100 100 2 2).avg_hr_1
            / (DriftMetrics.mk 0 100 100 2 2).avg_vel_1_mps)
        / ((DriftMetrics.mk 0 100 100 2 2).avg_hr_1
            / (DriftMetrics.mk 0 100 100 2 2).avg_vel_1_mps) * 100 := by
  have hsome : computeHrDrift [100, 100, 100] [0, 10, 20] [2, 2, 2] 0 0
      = some ⟨0, 100, 100, 2, 2⟩ := by
    with_unfolding_all decide
  have h := claim_C8 [100, 100, 100] [0, 10, 20] [2, 2, 2] 0 0
    ⟨0, 100, 100, 2, 2⟩ hsome
  exact ⟨hsome, h.2.2.2.2.2.2.2.2⟩

/-! ### Theorems: load gating by HR data quality (C3) -/

/-- `stripLoadUnlessGood` never changes the local date. -/
theorem stripLoadUnlessGood_dateIso (a : AggActivity) :
    (stripLoadUnlessGood a).dateIso = a.dateIso := by
  unfold stripLoadUnlessGood
  split <;> rfl

/-- Removing the load annotation of a non-Good activity does not change its
daily-summary contribution. -/
theorem bumpDailySummary_strip (s : DailySummary) (a : AggActivity) :
    bumpDailySummary s (stripLoadUnlessGood a) = bumpDailySummary s a := by
  unfold stripLoadUnlessGood
  by_cases hq : a.hrDataQuality = "Good"
  · rw [if_pos hq]
  · rw [if_neg hq]
    cases a with
    | mk dateIso sport elapsed moving dist elev quality loadPts =>
      dsimp only at hq ⊢
      cases loadPts with
      | none => rfl
      | some lp =>
        unfold bumpDailySummary
        dsimp only
        repeat' split
        all_goals try rfl
        all_goals rename_i hcond
        all_goals exact absurd hcond.1 hq

/-- `aggStep` is invariant under stripping non-Good load. -/
theorem aggStep_strip (daily : List (String × DailySummary)) (a : AggActivity) :
    aggStep daily (stripLoadUnlessGood a) = aggStep daily a := by
  unfold aggStep
  simp only [stripLoadUnlessGood_dateIso, bumpDailySummary_strip]

/-- The load-points gating pattern of the orchestrator: given the sport,
the computed HR data quality and the zone-minutes annotation, load points
are produced only when the sport is cardio and the quality is "Good". -/
theorem loadGate (sport q : String) (zm : Option (List (ℕ × ℚ))) :
    ((match zm with
      | some m =>
          if sport ∈ CARDIO_SPORTS ∧ q = "Good" then
            match computeZoneWeightedLoadPoints m with
            | some lp => if 0 < lp then some lp else none
            | none => none
          else none
      | none => (none : Option ℚ)) ≠ none →
        sport ∈ CARDIO_SPORTS ∧ q = "Good") ∧
    (q ≠ "Good" →
      (match zm with
        | some m =>
            if sport ∈ CARDIO_SPORTS ∧ q = "Good" then
              match computeZoneWeightedLoadPoints m with
              | some lp => if 0 < lp then some lp else none
              | none => none
            else none
        | none => (none : Option ℚ)) = none) := by
  cases zm with
  | none => exact ⟨fun h => absurd rfl h, fun _ => rfl⟩
  | some m =>
    dsimp only
    by_cases hc : sport ∈ CARDIO_SPORTS ∧ q = "Good"
    · rw [if_pos hc]
      exact ⟨fun _ => hc, fun hq => absurd hc.2 hq⟩
    · rw [if_neg hc]
      exact ⟨fun h => absurd rfl h, fun _ => rfl⟩

/-- C3: load points are attached only for cardio sports with HR data
quality "Good" (a "Partial"/"None" activity never gets `_load_pts`, even
when a zone-minutes histogram exists), and the daily aggregation totals are
unchanged if every non-Good activity's load annotation is removed — i.e. an
activity contributes load to its day only when its quality is "Good". -/
theorem claim_C3 (inp : EnrichInput) (activities : List AggActivity) (days : ℕ) :
    ((enrichActivity inp).loadPts ≠ none →
      inp.sport ∈ CARDIO_SPORTS ∧ (enrichActivity inp).hrDataQuality = "Good") ∧
    ((enrichActivity inp).hrDataQuality ≠ "Good" →
      (enrichActivity inp).loadPts = none) ∧
    aggregateDailySummaries activities days
      = aggregateDailySummaries (activities.map stripLoadUnlessGood) days := by
  have hgate : ((enrichActivity inp).loadPts ≠ none →
      inp.sport ∈ CARDIO_SPORTS ∧ (enrichActivity inp).hrDataQuality = "Good") ∧
      ((enrichActivity inp).hrDataQuality ≠ "Good" →
        (enrichActivity inp).loadPts = none) := by
    unfold enrichActivity
    dsimp only
    split
    · exact ⟨fun h => absurd rfl h, fun _ => rfl⟩
    · dsimp only
      exact loadGate inp.sport _ _
  refine ⟨hgate.1, hgate.2, ?_⟩
  unfold aggregateDailySummaries
  dsimp only
  congr 1
  rw [List.foldl_map]
  exact List.foldl_ext _ _ [] (fun d a _ => (aggStep_strip d a).symm)

/-- Witness for C3: a Good-quality run acquires load points; a concrete
aggregation is unchanged by stripping the load of a Partial activity. -/
theorem claim_C3_witness :
    ((enrichActivity ⟨"Run", true, 3600, 10000,
        some ⟨[110, 110], [0, 3600], []⟩, some [⟨some 0, none⟩]⟩).loadPts ≠ none ∧
      ("Run" ∈ CARDIO_SPORTS ∧
        (enrichActivity ⟨"Run", true, 3600, 10000,
          some ⟨[110, 110], [0, 3600], []⟩, some [⟨some 0, none⟩]⟩).hrDataQuality
        = "Good")) ∧
    aggregateDailySummaries
        [⟨"2024-05-01", "Run", 3600, 3000, 10000, 100, "Partial", some 10⟩] 30
      = aggregateDailySummaries
          ([⟨"2024-05-01", "Run", 3600, 3000, 10000, 100, "Partial", some 10⟩].map
            stripLoadUnlessGood) 30 := by
  have h := claim_C3 ⟨"Run", true, 3600, 10000,
    some ⟨[110, 110], [0, 3600], []⟩, some [⟨some 0, none⟩]⟩
    [⟨"2024-05-01", "Run", 3600, 3000, 10000, 100, "Partial", some 10⟩] 30
  have hne : (enrichActivity ⟨"Run", true, 3600, 10000,
      some ⟨[110, 110], [0, 3600], []⟩, some [⟨some 0, none⟩]⟩).loadPts ≠ none := by
    with_unfolding_all decide
  exact ⟨⟨hne, h.1 hne⟩, h.2.2⟩


/-! ### Theorems: property dicts (toward C1, C5) -/

/-- Lookup in a cons cell. -/
theorem lookupProp_cons (kv : String × PropValue) (rest : NotionPage) (k : String) :
    lookupProp (kv :: rest) k
      = if kv.1 = k then some kv.2 else lookupProp rest k := by
  unfold lookupProp
  rw [List.find?_cons]
  by_cases hk : kv.1 = k
  · rw [decide_eq_true hk, if_pos hk]
    rfl
  · rw [decide_eq_false hk, if_neg hk]

/-- Lookup after a dict assignment. -/
theorem lookupProp_dictSet (ps : NotionPage) (k : String) (v : PropValue)
    (k' : String) :
    lookupProp (dictSet ps k v) k' = if k' = k then some v else lookupProp ps k' := by
  induction ps with
  | nil =>
    simp only [dictSet, lookupProp_cons]
    by_cases h : k' = k
    · rw [if_pos h.symm, if_pos h]
    · rw [if_neg (fun hh => h hh.symm), if_neg h]
  | cons kv rest ih =>
    simp only [dictSet]
    by_cases h1 : kv.1 = k
    · rw [if_pos h1, lookupProp_cons, lookupProp_cons]
      by_cases h2 : k' = k
      · rw [if_pos h2.symm, if_pos h2]
      · rw [if_neg (fun hh => h2 hh.symm), if_neg h2,
          if_neg (fun hh : kv.1 = k' => h2 (hh.symm.trans h1))]
    · rw [if_neg h1, lookupProp_cons, lookupProp_cons, ih]
      by_cases h3 : kv.1 = k'
      · rw [if_pos h3, if_neg (fun hh : k' = k => h1 (h3.trans hh)), if_pos h3]
      · rw [if_neg h3, if_neg h3]

/-- The keys after a dict assignment are the old keys plus possibly the new
one. -/
theorem mem_propKeys_dictSet (ps : NotionPage) (k : String) (v : PropValue)
    (k' : String) :
    k' ∈ propKeys (dictSet ps k v) ↔ k' = k ∨ k' ∈ propKeys ps := by
  induction ps with
  | nil => simp [dictSet, propKeys]
  | cons kv rest ih =>
    simp only [dictSet]
    by_cases h1 : kv.1 = k
    · rw [if_pos h1]
      rw [show propKeys ((k, v) :: rest) = k :: propKeys rest from rfl,
        show propKeys (kv :: rest) = kv.1 :: propKeys rest from rfl]
      simp only [List.mem_cons, h1]
      tauto
    · rw [if_neg h1]
      rw [show propKeys (kv :: dictSet rest k v) = kv.1 :: propKeys (dictSet rest k v)
          from rfl,
        show propKeys (kv :: rest) = kv.1 :: propKeys rest from rfl]
      simp only [List.mem_cons, ih]
      tauto

/-- Dict assignment preserves duplicate-freedom of the keys. -/
theorem propKeys_dictSet_nodup (ps : NotionPage) (k : String) (v : PropValue)
    (h : (propKeys ps).Nodup) : (propKeys (dictSet ps k v)).Nodup := by
  induction ps with
  | nil => simp [dictSet, propKeys]
  | cons kv rest ih =>
    rw [show propKeys (kv :: rest) = kv.1 :: propKeys rest from rfl,
      List.nodup_cons] at h
    simp only [dictSet]
    by_cases h1 : kv.1 = k
    · rw [if_pos h1]
      rw [show propKeys ((k, v) :: rest) = k :: propKeys rest from rfl,
        List.nodup_cons]
      exact ⟨h1 ▸ h.1, h.2⟩
    · rw [if_neg h1]
      rw [show propKeys (kv :: dictSet rest k v) = kv.1 :: propKeys (dictSet rest k v)
        from rfl, List.nodup_cons]
      refine ⟨?_, ih h.2⟩
      intro hmem
      rcases (mem_propKeys_dictSet rest k v kv.1).mp hmem with h' | h'
      · exact h1 h'
      · exact h.1 h'

/-- A key absent from a dict looks up to nothing. -/
theorem lookupProp_eq_none_of_not_mem (ps : NotionPage) (k : String)
    (h : k ∉ propKeys ps) : lookupProp ps k = none := by
  unfold lookupProp
  rw [List.find?_eq_none.mpr]
  · rfl
  · intro kv hkv
    have hm : kv.1 ∈ propKeys ps := List.mem_map.mpr ⟨kv, hkv, rfl⟩
    intro hd
    rw [decide_eq_true_eq] at hd
    exact h (hd ▸ hm)

/-- Merging a written dict (with duplicate-free keys) into an existing page:
the written binding wins, otherwise the page's binding remains. -/
theorem lookupProp_mergeProps (w : NotionPage) (hw : (propKeys w).Nodup) :
    ∀ (e : NotionPage) (k : String),
      lookupProp (mergeProps e w) k = (lookupProp w k).or (lookupProp e k) := by
  induction w with
  | nil =>
    intro e k
    simp [mergeProps, lookupProp]
  | cons kv w ih =>
    intro e k
    rw [show propKeys (kv :: w) = kv.1 :: propKeys w from rfl, List.nodup_cons] at hw
    have hstep : mergeProps e (kv :: w) = mergeProps (dictSet e kv.1 kv.2) w := rfl
    rw [hstep, ih hw.2, lookupProp_dictSet, lookupProp_cons]
    by_cases h : kv.1 = k
    · have hk : k ∉ propKeys w := h ▸ hw.1
      rw [lookupProp_eq_none_of_not_mem w k hk, if_pos h.symm, if_pos h,
        Option.none_or, Option.or_some]
    · rw [if_neg (fun hh => h hh.symm), if_neg h]

/-- Lookup through a key-based filter. -/
theorem lookupProp_filter_key (q : String → Bool) (ps : NotionPage) (k : String) :
    lookupProp (ps.filter (fun kv => q kv.1)) k
      = if q k then lookupProp ps k else none := by
  induction ps with
  | nil => by_cases h : q k <;> simp [lookupProp, h]
  | cons kv rest ih =>
    rw [List.filter_cons]
    by_cases hk : kv.1 = k
    · by_cases hq : q kv.1
      · have hqk : q k := hk ▸ hq
        rw [if_pos hq, lookupProp_cons, lookupProp_cons, if_pos hk, if_pos hk,
          if_pos hqk]
      · have hqk : ¬ (q k = true) := fun hh => hq (by rw [hk]; exact hh)
        rw [if_neg hq, ih, if_neg hqk, if_neg hqk]
    · by_cases hq : q kv.1
      · rw [if_pos hq, lookupProp_cons, lookupProp_cons, if_neg hk, if_neg hk, ih]
      · rw [if_neg hq, ih, lookupProp_cons, if_neg hk]

/-- A key-based filter preserves duplicate-free keys. -/
theorem propKeys_filter_nodup (q : String → Bool) (ps : NotionPage)
    (h : (propKeys ps).Nodup) :
    (propKeys (ps.filter (fun kv => q kv.1))).Nodup := by
  have hsub : (ps.filter (fun kv => q kv.1)).Sublist ps := List.filter_sublist ps
  show ((ps.filter (fun kv => q kv.1)).map (fun kv => kv.1)).Nodup
  exact List.Nodup.sublist (hsub.map (fun kv => kv.1)) h


/-- The length of a dynamically generated HR-zone property name. -/
theorem hrZonePropName_length (z : ℕ) :
    (hrZonePropName z).length = 14 + (toString z).length := by
  rw [hrZonePropName, String.length_append, String.length_append]
  have h8 : ("HR Zone " : String).length = 8 := by decide
  have h6 : (" (min)" : String).length = 6 := by decide
  rw [h8, h6]
  omega

/-- An HR-zone property name is distinct from every short fixed key. -/
theorem hrZonePropName_ne (z : ℕ) (s : String) (hs : s.length < 14) :
    hrZonePropName z ≠ s := by
  intro h
  have hl := congrArg String.length h
  rw [hrZonePropName_length] at hl
  omega

/-- The zone-property fold touches only HR-zone keys. -/
theorem lookupProp_zoneFold (l : List (ℕ × ℚ)) (k : String) (hk : k.length < 14) :
    ∀ ps : NotionPage,
      lookupProp
        (l.foldl (fun ps p => dictSet ps (hrZonePropName p.1) (.number p.2)) ps) k
      = lookupProp ps k := by
  induction l with
  | nil => intro ps; rfl
  | cons p l ih =>
    intro ps
    rw [List.foldl_cons, ih, lookupProp_dictSet,
      if_neg (fun hh => hrZonePropName_ne p.1 k hk hh.symm)]

/-- The zone-property fold preserves duplicate-free keys. -/
theorem propKeys_zoneFold_nodup (l : List (ℕ × ℚ)) :
    ∀ ps : NotionPage, (propKeys ps).Nodup →
      (propKeys
        (l.foldl (fun ps p => dictSet ps (hrZonePropName p.1) (.number p.2)) ps)).Nodup := by
  induction l with
  | nil => intro ps h; exact h
  | cons p l ih =>
    intro ps h
    rw [List.foldl_cons]
    exact ih _ (propKeys_dictSet_nodup _ _ _ h)

/-- `addAvgHr` leaves every other key unchanged. -/
theorem lookupProp_addAvgHr (ps : NotionPage) (v? : Option ℚ) (k : String)
    (h : k ≠ NOTION_SCHEMA "avg_hr") :
    lookupProp (addAvgHr ps v?) k = lookupProp ps k := by
  unfold addAvgHr
  split
  · split
    · rw [lookupProp_dictSet, if_neg h]
    · rfl
  · rfl

/-- `addMaxHr` leaves every other key unchanged. -/
theorem lookupProp_addMaxHr (ps : NotionPage) (v? : Option ℚ) (k : String)
    (h : k ≠ NOTION_SCHEMA "max_hr") :
    lookupProp (addMaxHr ps v?) k = lookupProp ps k := by
  unfold addMaxHr
  split
  · split
    · rw [lookupProp_dictSet, if_neg h]
    · rfl
  · rfl

/-- `addPace` leaves every other key unchanged. -/
theorem lookupProp_addPace (ps : NotionPage) (v? : Option ℚ) (k : String)
    (h : k ≠ NOTION_SCHEMA "avg_pace_min_per_mi") :
    lookupProp (addPace ps v?) k = lookupProp ps k := by
  unfold addPace
  split
  · split
    · rw [lookupProp_dictSet, if_neg h]
    · rfl
  · rfl

/-- `addMovingTimeMin` leaves every other key unchanged. -/
theorem lookupProp_addMovingTimeMin (ps : NotionPage) (v? : Option ℚ) (k : String)
    (h : k ≠ NOTION_SCHEMA "moving_time_min") :
    lookupProp (addMovingTimeMin ps v?) k = lookupProp ps k := by
  unfold addMovingTimeMin
  split
  · split
    · rw [lookupProp_dictSet, if_neg h]
    · rfl
  · rfl

/-- `addZoneProps` leaves every short fixed key unchanged. -/
theorem lookupProp_addZoneProps (ps : NotionPage) (m? : Option (List (ℕ × ℚ)))
    (k : String) (hk : k.length < 14) :
    lookupProp (addZoneProps ps m?) k = lookupProp ps k := by
  unfold addZoneProps
  split
  · split
    · rw [lookupProp_zoneFold _ _ hk]
    · rfl
  · rfl

/-- `addDriftProps` leaves every non-drift key unchanged. -/
theorem lookupProp_addDriftProps (ps : NotionPage) (d? : Option DriftMetrics)
    (k : String)
    (h1 : k ≠ NOTION_SCHEMA "hr_drift_pct")
    (h2 : k ≠ NOTION_SCHEMA "hr_1st_half_bpm")
    (h3 : k ≠ NOTION_SCHEMA "hr_2nd_half_bpm")
    (h4 : k ≠ NOTION_SCHEMA "speed_1st_half_mph")
    (h5 : k ≠ NOTION_SCHEMA "speed_2nd_half_mph") :
    lookupProp (addDriftProps ps d?) k = lookupProp ps k := by
  unfold addDriftProps
  split
  · dsimp only
    rw [lookupProp_dictSet, if_neg h5, lookupProp_dictSet, if_neg h4,
      lookupProp_dictSet, if_neg h3, lookupProp_dictSet, if_neg h2,
      lookupProp_dictSet, if_neg h1]
  · rfl

/-- `addHrDataQuality` leaves every other key unchanged. -/
theorem lookupProp_addHrDataQuality (ps : NotionPage) (q : String) (k : String)
    (h : k ≠ NOTION_SCHEMA "hr_data_quality") :
    lookupProp (addHrDataQuality ps q) k = lookupProp ps k := by
  unfold addHrDataQuality
  split
  · rw [lookupProp_dictSet, if_neg h]
  · rfl

/-- `addLoadPts` leaves every other key unchanged. -/
theorem lookupProp_addLoadPts (ps : NotionPage) (v? : Option ℚ) (k : String)
    (h : k ≠ NOTION_SCHEMA "load_pts") :
    lookupProp (addLoadPts ps v?) k = lookupProp ps k := by
  unfold addLoadPts
  split
  · split
    · rw [lookupProp_dictSet, if_neg h]
    · rfl
  · rfl

/-- `addPhotoUrl` leaves every other key unchanged. -/
theorem lookupProp_addPhotoUrl (ps : NotionPage) (u? : Option String) (k : String)
    (h : k ≠ NOTION_SCHEMA "photo_url") :
    lookupProp (addPhotoUrl ps u?) k = lookupProp ps k := by
  unfold addPhotoUrl
  split
  · split
    · rw [lookupProp_dictSet, if_neg h]
    · rfl
  · rfl

/-- `addWeatherProps` leaves every non-weather key unchanged. -/
theorem lookupProp_addWeatherProps (ps : NotionPage) (w? : Option WeatherInfo)
    (k : String)
    (h1 : k ≠ NOTION_SCHEMA "temperature_f")
    (h2 : k ≠ NOTION_SCHEMA "weather_conditions") :
    lookupProp (addWeatherProps ps w?) k = lookupProp ps k := by
  unfold addWeatherProps
  split
  · dsimp only
    split
    · rw [lookupProp_dictSet, if_neg h2]
      split
      · rw [lookupProp_dictSet, if_neg h1]
      · rfl
    · split
      · rw [lookupProp_dictSet, if_neg h1]
      · rfl
  · rfl

/-- `addAvgHr` preserves duplicate-free keys. -/
theorem propKeys_addAvgHr_nodup (ps : NotionPage) (v? : Option ℚ)
    (h : (propKeys ps).Nodup) : (propKeys (addAvgHr ps v?)).Nodup := by
  unfold addAvgHr
  split
  · split
    · exact propKeys_dictSet_nodup _ _ _ h
    · exact h
  · exact h

/-- `addMaxHr` preserves duplicate-free keys. -/
theorem propKeys_addMaxHr_nodup (ps : NotionPage) (v? : Option ℚ)
    (h : (propKeys ps).Nodup) : (propKeys (addMaxHr ps v?)).Nodup := by
  unfold addMaxHr
  split
  · split
    · exact propKeys_dictSet_nodup _ _ _ h
    · exact h
  · exact h

/-- `addPace` preserves duplicate-free keys. -/
theorem propKeys_addPace_nodup (ps : NotionPage) (v? : Option ℚ)
    (h : (propKeys ps).Nodup) : (propKeys (addPace ps v?)).Nodup := by
  unfold addPace
  split
  · split
    · exact propKeys_dictSet_nodup _ _ _ h
    · exact h
  · exact h

/-- `addMovingTimeMin` preserves duplicate-free keys. -/
theorem propKeys_addMovingTimeMin_nodup (ps : NotionPage) (v? : Option ℚ)
    (h : (propKeys ps).Nodup) : (propKeys (addMovingTimeMin ps v?)).Nodup := by
  unfold addMovingTimeMin
  split
  · split
    · exact propKeys_dictSet_nodup _ _ _ h
    · exact h
  · exact h

/-- `addZoneProps` preserves duplicate-free keys. -/
theorem propKeys_addZoneProps_nodup (ps : NotionPage) (m? : Option (List (ℕ × ℚ)))
    (h : (propKeys ps).Nodup) : (propKeys (addZoneProps ps m?)).Nodup := by
  unfold addZoneProps
  split
  · split
    · exact propKeys_zoneFold_nodup _ _ h
    · exact h
  · exact h

/-- `addDriftProps` preserves duplicate-free keys. -/
theorem propKeys_addDriftProps_nodup (ps : NotionPage) (d? : Option DriftMetrics)
    (h : (propKeys ps).Nodup) : (propKeys (addDriftProps ps d?)).Nodup := by
  unfold addDriftProps
  split
  · exact propKeys_dictSet_nodup _ _ _ (propKeys_dictSet_nodup _ _ _
      (propKeys_dictSet_nodup _ _ _ (propKeys_dictSet_nodup _ _ _
        (propKeys_dictSet_nodup _ _ _ h))))
  · exact h

/-- `addHrDataQuality` preserves duplicate-free keys. -/
theorem propKeys_addHrDataQuality_nodup (ps : NotionPage) (q : String)
    (h : (propKeys ps).Nodup) : (propKeys (addHrDataQuality ps q)).Nodup := by
  unfold addHrDataQuality
  split
  · exact propKeys_dictSet_nodup _ _ _ h
  · exact h

/-- `addLoadPts` preserves duplicate-free keys. -/
theorem propKeys_addLoadPts_nodup (ps : NotionPage) (v? : Option ℚ)
    (h : (propKeys ps).Nodup) : (propKeys (addLoadPts ps v?)).Nodup := by
  unfold addLoadPts
  split
  · split
    · exact propKeys_dictSet_nodup _ _ _ h
    · exact h
  · exact h

/-- `addPhotoUrl` preserves duplicate-free keys. -/
theorem propKeys_addPhotoUrl_nodup (ps : NotionPage) (u? : Option String)
    (h : (propKeys ps).Nodup) : (propKeys (addPhotoUrl ps u?)).Nodup := by
  unfold addPhotoUrl
  split
  · split
    · exact propKeys_dictSet_nodup _ _ _ h
    · exact h
  · exact h

/-- `addWeatherProps` preserves duplicate-free keys. -/
theorem propKeys_addWeatherProps_nodup (ps : NotionPage) (w? : Option WeatherInfo)
    (h : (propKeys ps).Nodup) : (propKeys (addWeatherProps ps w?)).Nodup := by
  unfold addWeatherProps
  split
  · dsimp only
    split
    · split
      · exact propKeys_dictSet_nodup _ _ _ (propKeys_dictSet_nodup _ _ _ h)
      · exact propKeys_dictSet_nodup _ _ _ h
    · split
      · exact propKeys_dictSet_nodup _ _ _ h
      · exact h
  · exact h

/-- The converted property dict has duplicate-free keys. -/
theorem convert_propKeys_nodup (a : ActivityRecord) (nowIso : String) :
    (propKeys (convertActivityToProperties a nowIso)).Nodup := by
  unfold convertActivityToProperties
  dsimp only
  apply propKeys_addWeatherProps_nodup
  apply propKeys_addPhotoUrl_nodup
  apply propKeys_addLoadPts_nodup
  apply propKeys_addHrDataQuality_nodup
  apply propKeys_dictSet_nodup
  apply propKeys_addDriftProps_nodup
  apply propKeys_addZoneProps_nodup
  apply propKeys_dictSet_nodup
  apply propKeys_dictSet_nodup
  apply propKeys_addMovingTimeMin_nodup
  apply propKeys_addPace_nodup
  apply propKeys_addMaxHr_nodup
  apply propKeys_addAvgHr_nodup
  apply propKeys_dictSet_nodup
  apply propKeys_dictSet_nodup
  apply propKeys_dictSet_nodup
  apply propKeys_dictSet_nodup
  apply propKeys_dictSet_nodup
  apply propKeys_dictSet_nodup
  apply propKeys_dictSet_nodup
  simp [propKeys]

/-- The converted property dict always carries the activity id under the
"Activity ID" key. -/
theorem convert_lookup_activity_id (a : ActivityRecord) (nowIso : String) :
    lookupProp (convertActivityToProperties a nowIso) (NOTION_SCHEMA "activity_id")
      = some (.richText (toString a.id)) := by
  unfold convertActivityToProperties
  dsimp only
  rw [lookupProp_addWeatherProps _ _ _ (by decide) (by decide),
    lookupProp_addPhotoUrl _ _ _ (by decide),
    lookupProp_addLoadPts _ _ _ (by decide),
    lookupProp_addHrDataQuality _ _ _ (by decide),
    lookupProp_dictSet, if_neg (by decide),
    lookupProp_addDriftProps _ _ _ (by decide) (by decide) (by decide) (by decide)
      (by decide),
    lookupProp_addZoneProps _ _ _ (by decide),
    lookupProp_dictSet, if_neg (by decide),
    lookupProp_dictSet, if_neg (by decide),
    lookupProp_addMovingTimeMin _ _ _ (by decide),
    lookupProp_addPace _ _ _ (by decide),
    lookupProp_addMaxHr _ _ _ (by decide),
    lookupProp_addAvgHr _ _ _ (by decide),
    lookupProp_dictSet, if_neg (by decide),
    lookupProp_dictSet, if_neg (by decide),
    lookupProp_dictSet, if_neg (by decide),
    lookupProp_dictSet, if_neg (by decide),
    lookupProp_dictSet, if_neg (by decide),
    lookupProp_dictSet, if_pos rfl]


/-- Looking up a non-"Sync Status" key in the written upsert properties is
independent of the update/create classification: the schema filter decides
it alone. -/
theorem buildUpsertProperties_lookup_ne_sync (ps : NotionPage)
    (allowed? : Option (List String)) (b : Bool) (k : String)
    (hk : k ≠ "Sync Status") :
    lookupProp (buildUpsertProperties ps allowed? b) k
      = match allowed? with
        | some allowed => if k ∈ allowed then lookupProp ps k else none
        | none => if k = NOTION_SCHEMA "load_pts" then none else lookupProp ps k := by
  unfold buildUpsertProperties
  cases allowed? with
  | none =>
    dsimp only
    rw [lookupProp_filter_key (fun k' => decide (k' ≠ NOTION_SCHEMA "load_pts")) ps k]
    by_cases hkl : k = NOTION_SCHEMA "load_pts"
    · rw [if_pos hkl, if_neg (by simpa using hkl)]
    · rw [if_neg hkl, if_pos (by simpa using hkl)]
  | some allowed =>
    dsimp only
    split
    · rw [lookupProp_filter_key (fun k' => decide (k' ∈ allowed)) _ k,
        lookupProp_dictSet, if_neg hk]
      by_cases hmem : k ∈ allowed
      · rw [if_pos (by simpa using hmem), if_pos hmem]
      · rw [if_neg (by simpa using hmem), if_neg hmem]
    · rw [lookupProp_filter_key (fun k' => decide (k' ∈ allowed)) _ k]
      by_cases hmem : k ∈ allowed
      · rw [if_pos (by simpa using hmem), if_pos hmem]
      · rw [if_neg (by simpa using hmem), if_neg hmem]

/-- The written upsert properties have duplicate-free keys. -/
theorem buildUpsertProperties_nodup (ps : NotionPage)
    (allowed? : Option (List String)) (b : Bool)
    (h : (propKeys ps).Nodup) :
    (propKeys (buildUpsertProperties ps allowed? b)).Nodup := by
  unfold buildUpsertProperties
  cases allowed? with
  | none =>
    dsimp only
    exact propKeys_filter_nodup (fun k' => decide (k' ≠ NOTION_SCHEMA "load_pts")) ps h
  | some allowed =>
    dsimp only
    split
    · exact propKeys_filter_nodup (fun k' => decide (k' ∈ allowed)) _
        (propKeys_dictSet_nodup _ _ _ h)
    · exact propKeys_filter_nodup (fun k' => decide (k' ∈ allowed)) _ h

/-- When the schema keeps "Activity ID", the written upsert properties keep
the id binding. -/
theorem buildUpsertProperties_lookup_activity_id (ps : NotionPage)
    (allowed? : Option (List String)) (b : Bool) (v : PropValue)
    (hid : lookupProp ps (NOTION_SCHEMA "activity_id") = some v)
    (hschema : SchemaKeepsActivityId allowed?) :
    lookupProp (buildUpsertProperties ps allowed? b) (NOTION_SCHEMA "activity_id")
      = some v := by
  rw [buildUpsertProperties_lookup_ne_sync ps allowed? b _ (by decide)]
  cases allowed? with
  | none =>
    dsimp only
    rw [if_neg (by decide)]
    exact hid
  | some allowed =>
    dsimp only
    rw [if_pos (show NOTION_SCHEMA "activity_id" ∈ allowed from hschema)]
    exact hid

/-- `findIdx?` over an appended singleton when nothing matched before. -/
theorem findIdx?_append_singleton_of_none {α : Type} (l : List α) (x : α)
    (p : α → Bool) (h : l.findIdx? p = none) (hx : p x) :
    (l ++ [x]).findIdx? p = some l.length := by
  induction l with
  | nil => simp [List.findIdx?_cons, hx]
  | cons a l ih =>
    rw [List.findIdx?_cons] at h
    by_cases hpa : p a
    · rw [if_pos hpa] at h
      exact absurd h (by simp)
    · rw [if_neg hpa, List.findIdx?_succ] at h
      have hl : l.findIdx? p = none := by
        cases hfi : l.findIdx? p with
        | none => rfl
        | some j => rw [hfi] at h; exact absurd h (by simp)
      rw [List.cons_append, List.findIdx?_cons, if_neg hpa, List.findIdx?_succ, ih hl]
      simp

/-- `getD` at the appended position. -/
theorem getD_append_length {α : Type} (l : List α) (x : α) (d : α) :
    (l ++ [x]).getD l.length d = x := by
  rw [List.getD_eq_getElem?_getD, List.getElem?_append_right (le_refl _)]
  simp

/-- `getD` before the appended position. -/
theorem getD_append_lt {α : Type} (l : List α) (x : α) (d : α) (i : ℕ)
    (h : i < l.length) : (l ++ [x]).getD i d = l.getD i d := by
  rw [List.getD_eq_getElem?_getD, List.getD_eq_getElem?_getD,
    List.getElem?_append_left h]

/-- `getD` away from a `set` position. -/
theorem getD_set_ne {α : Type} (l : List α) (n i : ℕ) (x : α) (d : α)
    (h : n ≠ i) : (l.set n x).getD i d = l.getD i d := by
  rw [List.getD_eq_getElem?_getD, List.getD_eq_getElem?_getD,
    List.getElem?_set_ne h]

/-- `getD` at a `set` position in range. -/
theorem getD_set_self {α : Type} (l : List α) (n : ℕ) (x : α) (d : α)
    (h : n < l.length) : (l.set n x).getD n d = x := by
  rw [List.getD_eq_getElem?_getD, List.getElem?_set_self h]
  rfl

/-- Absorption: `o.or (o.or p) = o.or p`. -/
theorem option_or_absorb {α : Type} (o p : Option α) : o.or (o.or p) = o.or p := by
  cases o <;> simp

/-- Idempotence: `o.or o = o`. -/
theorem option_or_self {α : Type} (o : Option α) : o.or o = o := by
  cases o <;> simp

/-- An upsert that finds an existing page updates it (merging the written
properties) and is classified "updated". -/
theorem upsert_step_found (store : NotionStore) (a : ActivityRecord)
    (nowIso : String) (allowed? : Option (List String)) (j : ℕ)
    (h : findPageByActivityId store (toString a.id) = some j) :
    upsertActivityStep store a nowIso allowed?
      = (store.set j (mergeProps (store.getD j [])
          (buildUpsertProperties (convertActivityToProperties a nowIso) allowed? true)),
         UpsertClass.updated) := by
  unfold upsertActivityStep
  dsimp only
  rw [h]
  rfl

/-- An upsert that finds no existing page appends a new one and is
classified "created". -/
theorem upsert_step_not_found (store : NotionStore) (a : ActivityRecord)
    (nowIso : String) (allowed? : Option (List String))
    (h : findPageByActivityId store (toString a.id) = none) :
    upsertActivityStep store a nowIso allowed?
      = (store ++ [buildUpsertProperties (convertActivityToProperties a nowIso)
          allowed? false],
         UpsertClass.created) := by
  unfold upsertActivityStep
  dsimp only
  rw [h]
  rfl

/-- C1 (amended): re-upserting the same activity with identical data and no
intervening destination-side change finds the existing page by activity id
and updates it — the second invocation is classified "updated", creates no
new row, and leaves every property of every destination row unchanged
except possibly a "Sync Status" bookkeeping property (which records
"created" on the creating call and "updated" thereafter, when the schema
defines it).  The hypothesis says the schema, when filtering is enabled,
keeps the required "Activity ID" property. -/
theorem claim_C1_amended (store : NotionStore) (a : ActivityRecord)
    (nowIso : String) (allowedProperties : Option (List String))
    (hschema : SchemaKeepsActivityId allowedProperties) :
    ((upsertActivityStep (upsertActivityStep store a nowIso allowedProperties).1
        a nowIso allowedProperties).2 = UpsertClass.updated) ∧
    ((upsertActivityStep (upsertActivityStep store a nowIso allowedProperties).1
        a nowIso allowedProperties).1.length
      = (upsertActivityStep store a nowIso allowedProperties).1.length) ∧
    (∀ (i : ℕ) (k : String), k ≠ "Sync Status" →
      lookupProp ((upsertActivityStep (upsertActivityStep store a nowIso
            allowedProperties).1 a nowIso allowedProperties).1.getD i []) k
        = lookupProp ((upsertActivityStep store a nowIso
            allowedProperties).1.getD i []) k) := by
  have hids := convert_lookup_activity_id a nowIso
  have hnodg := convert_propKeys_nodup a nowIso
  have hw1id : ∀ b : Bool,
      lookupProp (buildUpsertProperties (convertActivityToProperties a nowIso)
        allowedProperties b) (NOTION_SCHEMA "activity_id")
      = some (.richText (toString a.id)) :=
    fun b => buildUpsertProperties_lookup_activity_id _ _ _ _ hids hschema
  have hwnodup : ∀ b : Bool,
      (propKeys (buildUpsertProperties (convertActivityToProperties a nowIso)
        allowedProperties b)).Nodup :=
    fun b => buildUpsertProperties_nodup _ _ _ hnodg
  have hwE : ∀ (b b' : Bool) (k : String), k ≠ "Sync Status" →
      lookupProp (buildUpsertProperties (convertActivityToProperties a nowIso)
        allowedProperties b) k
      = lookupProp (buildUpsertProperties (convertActivityToProperties a nowIso)
        allowedProperties b') k := by
    intro b b' k hk
    rw [buildUpsertProperties_lookup_ne_sync _ _ _ _ hk,
      buildUpsertProperties_lookup_ne_sync _ _ _ _ hk]
  cases h0 : findPageByActivityId store (toString a.id) with
  | none =>
    rw [upsert_step_not_found store a nowIso allowedProperties h0]
    dsimp only
    have hfind : findPageByActivityId
        (store ++ [buildUpsertProperties (convertActivityToProperties a nowIso)
          allowedProperties false]) (toString a.id)
        = some store.length := by
      unfold findPageByActivityId at h0 ⊢
      exact findIdx?_append_singleton_of_none store _ _ h0
        (decide_eq_true (hw1id false))
    rw [upsert_step_found _ a nowIso allowedProperties store.length hfind]
    dsimp only
    refine ⟨rfl, by simp, ?_⟩
    intro i k hk
    by_cases hi : i = store.length
    · subst hi
      rw [getD_set_self _ _ _ _ (by simp)]
      rw [getD_append_length]
      rw [lookupProp_mergeProps _ (hwnodup true)]
      rw [hwE true false k hk]
      exact option_or_self _
    · rw [getD_set_ne _ _ _ _ _ (fun hh => hi hh.symm)]
  | some j =>
    unfold findPageByActivityId at h0
    obtain ⟨hjlt, hpj, hbef⟩ := List.findIdx?_eq_some_iff_getElem.mp h0
    have h0' : findPageByActivityId store (toString a.id) = some j := h0
    rw [upsert_step_found store a nowIso allowedProperties j h0']
    dsimp only
    have hfind2 : findPageByActivityId
        (store.set j (mergeProps (store.getD j [])
          (buildUpsertProperties (convertActivityToProperties a nowIso)
            allowedProperties true))) (toString a.id)
        = some j := by
      unfold findPageByActivityId
      rw [List.findIdx?_eq_some_iff_getElem]
      refine ⟨by simpa using hjlt, ?_, ?_⟩
      · rw [List.getElem_set_self (by simpa using hjlt)]
        refine decide_eq_true ?_
        have hbase : store.getD j [] = store[j] := by
          rw [List.getD_eq_getElem?_getD, List.getElem?_eq_getElem hjlt]
          rfl
        rw [lookupProp_mergeProps _ (hwnodup true), hw1id true]
        rfl
      · intro i hij
        have hne : j ≠ i := fun hh => (Nat.ne_of_lt hij) hh.symm
        intro hcon
        rw [List.getElem_set_ne hne] at hcon
        exact hbef i hij hcon
    rw [upsert_step_found _ a nowIso allowedProperties j hfind2]
    dsimp only
    refine ⟨rfl, by simp, ?_⟩
    intro i k hk
    by_cases hi : i = j
    · subst hi
      rw [getD_set_self _ _ _ _ (by simpa using hjlt),
        getD_set_self _ _ _ _ hjlt,
        lookupProp_mergeProps _ (hwnodup true),
        lookupProp_mergeProps _ (hwnodup true)]
      exact option_or_absorb _ _
    · rw [getD_set_ne _ _ _ _ _ (fun hh => hi hh.symm),
        getD_set_ne _ _ _ _ _ (fun hh => hi hh.symm)]

/-- C1 counterexample: with a schema that defines "Sync Status", the second
(identical) upsert is classified "updated" and creates no duplicate, but
the destination row is *not* left unchanged — its "Sync Status" property
flips from "created" to "updated". -/
theorem claim_C1_counterexample :
    ((upsertActivityStep [] ⟨7, "Morning Run", some "Run", "2024-05-01T10:00:00Z",
        some 0, some 0, some 0, some 0, none, none, none, none, false, "None",
        none, none, none⟩
      "2024-05-02T00:00:00+00:00"
      (schemaFromProperties ["Name", "Activity ID", "Date", "Sport", "Duration (min)",
        "Distance (mi)", "Elevation (ft)", "Strava URL", "Last Synced",
        "HR Data Quality", "Drift Eligible", "Sync Status"])).2
      = UpsertClass.created) ∧
    ((upsertActivityStep
        (upsertActivityStep [] ⟨7, "Morning Run", some "Run", "2024-05-01T10:00:00Z",
          some 0, some 0, some 0, some 0, none, none, none, none, false, "None",
          none, none, none⟩
          "2024-05-02T00:00:00+00:00"
          (schemaFromProperties ["Name", "Activity ID", "Date", "Sport", "Duration (min)",
            "Distance (mi)", "Elevation (ft)", "Strava URL", "Last Synced",
            "HR Data Quality", "Drift Eligible", "Sync Status"])).1
        ⟨7, "Morning Run", some "Run", "2024-05-01T10:00:00Z",
          some 0, some 0, some 0, some 0, none, none, none, none, false, "None",
          none, none, none⟩
        "2024-05-02T00:00:00+00:00"
        (schemaFromProperties ["Name", "Activity ID", "Date", "Sport", "Duration (min)",
          "Distance (mi)", "Elevation (ft)", "Strava URL", "Last Synced",
          "HR Data Quality", "Drift Eligible", "Sync Status"])).2
      = UpsertClass.updated) ∧
    lookupProp
      ((upsertActivityStep [] ⟨7, "Morning Run", some "Run", "2024-05-01T10:00:00Z",
          some 0, some 0, some 0, some 0, none, none, none, none, false, "None",
          none, none, none⟩
        "2024-05-02T00:00:00+00:00"
        (schemaFromProperties ["Name", "Activity ID", "Date", "Sport", "Duration (min)",
          "Distance (mi)", "Elevation (ft)", "Strava URL", "Last Synced",
          "HR Data Quality", "Drift Eligible", "Sync Status"])).1.getD 0 [])
      "Sync Status" = some (PropValue.select "created") ∧
    lookupProp
      ((upsertActivityStep
          (upsertActivityStep [] ⟨7, "Morning Run", some "Run", "2024-05-01T10:00:00Z",
            some 0, some 0, some 0, some 0, none, none, none, none, false, "None",
            none, none, none⟩
            "2024-05-02T00:00:00+00:00"
            (schemaFromProperties ["Name", "Activity ID", "Date", "Sport", "Duration (min)",
              "Distance (mi)", "Elevation (ft)", "Strava URL", "Last Synced",
              "HR Data Quality", "Drift Eligible", "Sync Status"])).1
          ⟨7, "Morning Run", some "Run", "2024-05-01T10:00:00Z",
            some 0, some 0, some 0, some 0, none, none, none, none, false, "None",
            none, none, none⟩
          "2024-05-02T00:00:00+00:00"
          (schemaFromProperties ["Name", "Activity ID", "Date", "Sport", "Duration (min)",
            "Distance (mi)", "Elevation (ft)", "Strava URL", "Last Synced",
            "HR Data Quality", "Drift Eligible", "Sync Status"])).1.getD 0 [])
      "Sync Status" = some (PropValue.select "updated") := by
  with_unfolding_all decide

/-- Witness for C1: the amended theorem applied at the counterexample's
concrete input, its schema hypothesis discharged. -/
theorem claim_C1_witness :
    (upsertActivityStep
        (upsertActivityStep [] ⟨7, "Morning Run", some "Run", "2024-05-01T10:00:00Z",
          some 0, some 0, some 0, some 0, none, none, none, none, false, "None",
          none, none, none⟩
          "2024-05-02T00:00:00+00:00"
          (schemaFromProperties ["Name", "Activity ID", "Date", "Sport", "Duration (min)",
            "Distance (mi)", "Elevation (ft)", "Strava URL", "Last Synced",
            "HR Data Quality", "Drift Eligible", "Sync Status"])).1
        ⟨7, "Morning Run", some "Run", "2024-05-01T10:00:00Z",
          some 0, some 0, some 0, some 0, none, none, none, none, false, "None",
          none, none, none⟩
        "2024-05-02T00:00:00+00:00"
        (schemaFromProperties ["Name", "Activity ID", "Date", "Sport", "Duration (min)",
          "Distance (mi)", "Elevation (ft)", "Strava URL", "Last Synced",
          "HR Data Quality", "Drift Eligible", "Sync Status"])).2
      = UpsertClass.updated :=
  (claim_C1_amended [] ⟨7, "Morning Run", some "Run", "2024-05-01T10:00:00Z",
      some 0, some 0, some 0, some 0, none, none, none, none, false, "None",
      none, none, none⟩
    "2024-05-02T00:00:00+00:00"
    (schemaFromProperties ["Name", "Activity ID", "Date", "Sport", "Duration (min)",
      "Distance (mi)", "Elevation (ft)", "Strava URL", "Last Synced",
      "HR Data Quality", "Drift Eligible", "Sync Status"])
    (by
      show NOTION_SCHEMA "activity_id" ∈ ["Name", "Activity ID", "Date", "Sport",
        "Duration (min)", "Distance (mi)", "Elevation (ft)", "Strava URL",
        "Last Synced", "HR Data Quality", "Drift Eligible", "Sync Status"]
      decide)).1

/-- C5 (amended): a zero-property schema fetch is a soft failure — the
cache records no schema and filtering is disabled — and with filtering
disabled an upsert write keeps every generated non-null property *except*
the optional "Load (pts)" property, which is conservatively dropped while
the schema is unknown; writes are not dropped entirely. -/
theorem claim_C5_amended (properties : NotionPage) (isUpdate : Bool)
    (k : String) (hk : k ≠ NOTION_SCHEMA "load_pts") :
    schemaFromProperties [] = none ∧
    lookupProp (buildUpsertProperties properties none isUpdate) k
      = lookupProp properties k ∧
    lookupProp (buildUpsertProperties properties none isUpdate)
      (NOTION_SCHEMA "load_pts") = none := by
  have hsk : k ≠ "Sync Status" ∨ k = "Sync Status" := (ne_or_eq k "Sync Status")
  refine ⟨rfl, ?_, ?_⟩
  · -- with no schema, no Sync Status property is added, so the lookup is a
    -- pure filter on the key
    unfold buildUpsertProperties
    dsimp only
    rw [lookupProp_filter_key (fun k' => decide (k' ≠ NOTION_SCHEMA "load_pts"))
      properties k, if_pos (by simpa using hk)]
  · unfold buildUpsertProperties
    dsimp only
    rw [lookupProp_filter_key (fun k' => decide (k' ≠ NOTION_SCHEMA "load_pts"))
      properties (NOTION_SCHEMA "load_pts"), if_neg (by simp)]

/-- C5 counterexample: with schema filtering disabled, the generated
non-null "Load (pts)" property of an activity is *not* sent — so "every
generated non-null property is sent" fails. -/
theorem claim_C5_counterexample :
    schemaFromProperties [] = none ∧
    lookupProp
      (convertActivityToProperties
        ⟨7, "Morning Run", some "Run", "2024-05-01T10:00:00Z", some 0, some 0,
          some 0, some 0, none, none, some [(1, 30)], none, false, "Good",
          some 30, none, none⟩
        "2024-05-02T00:00:00+00:00")
      (NOTION_SCHEMA "load_pts") = some (PropValue.number 30) ∧
    lookupProp
      (buildUpsertProperties
        (convertActivityToProperties
          ⟨7, "Morning Run", some "Run", "2024-05-01T10:00:00Z", some 0, some 0,
            some 0, some 0, none, none, some [(1, 30)], none, false, "Good",
            some 30, none, none⟩
          "2024-05-02T00:00:00+00:00")
        none false)
      (NOTION_SCHEMA "load_pts") = none := by
  with_unfolding_all decide

/-- Witness for C5: the amended theorem applied to a concrete two-property
page, its key hypothesis discharged. -/
theorem claim_C5_witness :
    schemaFromProperties [] = none ∧
    lookupProp (buildUpsertProperties
        [("Name", PropValue.title "x"), ("Load (pts)", PropValue.number 5)]
        none false) "Name"
      = some (PropValue.title "x") ∧
    lookupProp (buildUpsertProperties
        [("Name", PropValue.title "x"), ("Load (pts)", PropValue.number 5)]
        none false) (NOTION_SCHEMA "load_pts")
      = none := by
  have h := claim_C5_amended
    [("Name", PropValue.title "x"), ("Load (pts)", PropValue.number 5)]
    false "Name" (by decide)
  refine ⟨h.1, ?_, h.2.2⟩
  rw [h.2.1]
  with_unfolding_all decide
end StravaNotion
